import Mathlib

/-!
Shallow embedding of the easyeda2kicad board-conversion engine:
`src/board.ts` (the current engine) together with the superseded engine
kept in the repository (the unnamed file holding `kiUnits`, `kiAngle`,
and the original converters).  JavaScript numbers are modelled as
rationals extended with NaN; the evaluation of the transcendental
functions `Math.sin` / `Math.cos` is a parameter of the development
(a `Trig` structure), so every definition stays executable.
-/

set_option allowUnsafeReducibility true in
attribute [semireducible] Rat.add Rat.mul Rat.sub Rat.inv Rat.ofScientific Rat.blt

instance {ε α : Type} [DecidableEq ε] [DecidableEq α] : DecidableEq (Except ε α) :=
  fun a b =>
    match a, b with
    | Except.ok x, Except.ok y =>
        if h : x = y then isTrue (by rw [h]) else isFalse (fun hc => h (by injection hc))
    | Except.error x, Except.error y =>
        if h : x = y then isTrue (by rw [h]) else isFalse (fun hc => h (by injection hc))
    | Except.ok _, Except.error _ => isFalse (fun hc => by injection hc)
    | Except.error _, Except.ok _ => isFalse (fun hc => by injection hc)

/-- JavaScript number value: a rational, or NaN.  (Infinities never arise
on the inputs the converters handle, so they are not modelled.) -/
inductive JNum where
  | num : ℚ → JNum
  | nan : JNum
deriving DecidableEq

namespace JNum

/-- Addition with NaN propagation. -/
def add : JNum → JNum → JNum
  | num a, num b => num (a + b)
  | _, _ => nan

/-- Subtraction with NaN propagation. -/
def sub : JNum → JNum → JNum
  | num a, num b => num (a - b)
  | _, _ => nan

/-- Multiplication with NaN propagation. -/
def mul : JNum → JNum → JNum
  | num a, num b => num (a * b)
  | _, _ => nan

/-- Negation with NaN propagation. -/
def neg : JNum → JNum
  | num a => num (-a)
  | nan => nan

instance : Add JNum := ⟨add⟩

instance : Sub JNum := ⟨sub⟩

instance : Mul JNum := ⟨mul⟩

instance : Neg JNum := ⟨neg⟩

/-- JavaScript `Math.abs` (NaN maps to NaN). -/
def absJ : JNum → JNum
  | num a => num |a|
  | nan => nan

/-- JavaScript `Math.max` on two numbers: NaN if either operand is NaN. -/
def jmax : JNum → JNum → JNum
  | num a, num b => num (max a b)
  | _, _ => nan

/-- JavaScript `Math.min` on two numbers: NaN if either operand is NaN. -/
def jmin : JNum → JNum → JNum
  | num a, num b => num (min a b)
  | _, _ => nan

/-- JavaScript `isNaN`. -/
def isNaN : JNum → Bool
  | num _ => false
  | nan => true

/-- JavaScript truthiness of a number: `0` and NaN are falsy. -/
def truthy : JNum → Bool
  | num a => a ≠ 0
  | nan => false

/-- JavaScript `<` on numbers: false whenever an operand is NaN. -/
def ltB : JNum → JNum → Bool
  | num a, num b => a < b
  | _, _ => false

/-- JavaScript `>` on numbers: false whenever an operand is NaN. -/
def gtB : JNum → JNum → Bool
  | num a, num b => b < a
  | _, _ => false

/-- JavaScript `===` between a number value and a numeric literal:
false whenever the value is NaN. -/
def eqQ : JNum → ℚ → Bool
  | num a, q => a = q
  | nan, _ => false

/-- JavaScript `Math.round`: round half toward positive infinity. -/
def roundJ : JNum → JNum
  | num a => num (⌊a + 1 / 2⌋ : ℤ)
  | nan => nan

/-- JavaScript `%` (remainder, sign of the dividend, truncated division). -/
def remJ : JNum → JNum → JNum
  | num a, num b =>
      if b = 0 then nan
      else num (a - b * ((if 0 ≤ a / b then ⌊a / b⌋ else ⌈a / b⌉) : ℤ))
  | _, _ => nan

end JNum

/-- Numeric value of a decimal digit character. -/
def digitVal (c : Char) : ℕ := c.toNat - '0'.toNat

/-- Value of a list of decimal digit characters, most significant first. -/
def digitsToNat (l : List Char) : ℕ :=
  l.foldl (fun acc c => 10 * acc + digitVal c) 0

/-- Integer power of ten over the rationals. -/
def pow10 (e : ℤ) : ℚ :=
  if 0 ≤ e then (10 : ℚ) ^ e.toNat else ((10 : ℚ) ^ (-e).toNat)⁻¹

/-- Exponent part of a JavaScript float literal: consumed only when at
least one digit follows the `e`; otherwise the exponent contributes 0
(JavaScript `parseFloat` stops before a dangling exponent marker). -/
def parseExp (cs : List Char) : ℤ :=
  match cs with
  | c :: rest =>
      if c = 'e' ∨ c = 'E' then
        let (eneg, rest2) :=
          match rest with
          | '-' :: r => (true, r)
          | '+' :: r => (false, r)
          | _ => (false, rest)
        let eD := rest2.takeWhile Char.isDigit
        if eD.isEmpty then 0
        else if eneg then -(digitsToNat eD : ℤ) else (digitsToNat eD : ℤ)
      else 0
  | [] => 0

/-- JavaScript `parseFloat`: skip leading whitespace, optional sign,
digits with optional fraction and exponent, ignore trailing garbage;
NaN when no digit is found. -/
def parseFloat (s : String) : JNum :=
  let cs := s.data.dropWhile Char.isWhitespace
  let (sneg, cs1) :=
    match cs with
    | '-' :: r => (true, r)
    | '+' :: r => (false, r)
    | _ => (false, cs)
  let intD := cs1.takeWhile Char.isDigit
  let r1 := cs1.dropWhile Char.isDigit
  let (fracD, r2) :=
    match r1 with
    | '.' :: r => (r.takeWhile Char.isDigit, r.dropWhile Char.isDigit)
    | _ => ([], r1)
  if intD.isEmpty ∧ fracD.isEmpty then JNum.nan
  else
    let mant : ℚ :=
      (digitsToNat intD : ℚ) + (digitsToNat fracD : ℚ) / (10 : ℚ) ^ fracD.length
    let v := mant * pow10 (parseExp r2)
    JNum.num (if sneg then -v else v)

/-- JavaScript `parseInt(s, 10)`: skip leading whitespace, optional sign,
leading decimal digits; `none` models NaN. -/
def parseIntTen (s : String) : Option ℤ :=
  let cs := s.data.dropWhile Char.isWhitespace
  let (sneg, cs1) :=
    match cs with
    | '-' :: r => (true, r)
    | '+' :: r => (false, r)
    | _ => (false, cs)
  let intD := cs1.takeWhile Char.isDigit
  if intD.isEmpty then none
  else some (if sneg then -(digitsToNat intD : ℤ) else (digitsToNat intD : ℤ))

/-- Evaluation oracle for the transcendental functions: `sin a` models
JavaScript `Math.sin(Math.PI * a / 180)` and `cos a` models
`Math.cos(Math.PI * a / 180)` for a degree argument `a`.  The development
is parametric in this evaluation, so all statements hold for the actual
double-precision evaluation as well. -/
structure Trig where
  sin : ℚ → ℚ
  cos : ℚ → ℚ

/-- Sine applied to a JavaScript number of degrees (NaN propagates). -/
def jsin (T : Trig) : JNum → JNum
  | JNum.num a => JNum.num (T.sin a)
  | JNum.nan => JNum.nan

/-- Point with JavaScript-number coordinates. -/
structure JPoint where
  x : JNum
  y : JNum
deriving DecidableEq

/-- Parent placement passed to child converters (`IParentTransform` in the
source): origin in target units plus an optional rotation angle (the angle
can be null — an absent/unparseable rotation — or NaN). -/
structure IParentTransform where
  x : JNum
  y : JNum
  angle : Option JNum
deriving DecidableEq

/-- JavaScript `transform?.angle || 0`: null, NaN and an absent transform
all collapse to 0. -/
def angleOr0 : Option IParentTransform → ℚ
  | none => 0
  | some p =>
      match p.angle with
      | some (JNum.num a) => a
      | _ => 0

/-- Unit conversion of the source engine (`kiUnits`): the source value
times 10 times 0.0254. -/
def kiUnits (v : JNum) : JNum :=
  v * JNum.num 10 * JNum.num (0.0254 : ℚ)

/-- String-argument form of `kiUnits` (the source accepts a string and
parses it first). -/
def kiUnitsS (s : String) : JNum := kiUnits (parseFloat s)

/-- Angle normalization core (`kiAngle` on an already-parsed value):
angles above 180 wrap to `-(360 - angle)`; NaN yields null. -/
def kiAngleN : JNum → Option ℚ
  | JNum.num a => some (if 180 < a then -(360 - a) else a)
  | JNum.nan => none

/-- Angle normalization of the source engine (`kiAngle`): parse the string,
then normalize; an unparseable angle yields null, never zero. -/
def kiAngle (s : String) : Option ℚ := kiAngleN (parseFloat s)

/-- Rotation of a point by an angle in degrees (`rotate` in common.ts,
which is not under src/; the standard rotation matrix, evaluated through
the `Trig` oracle). -/
def rotate (T : Trig) (p : JPoint) (degrees : ℚ) : JPoint :=
  ⟨p.x * JNum.num (T.cos degrees) - p.y * JNum.num (T.sin degrees),
   p.x * JNum.num (T.sin degrees) + p.y * JNum.num (T.cos degrees)⟩

/-- Modelled from the spec: `kiCoords` lives in common.ts, which is not
under src/.  Per §3 and §4.1 of the specification a point subtracts the
fixed source origin (4000, 3000), scales by the unit factor, and then
applies the parent transform (translation by the parent origin and
rotation by the parent angle, an absent transform acting as the zero
transform). -/
def kiCoordsN (T : Trig) (x y : JNum) (pc : Option IParentTransform) : JPoint :=
  let px : JNum := match pc with | none => JNum.num 0 | some p => p.x
  let py : JNum := match pc with | none => JNum.num 0 | some p => p.y
  rotate T
    ⟨kiUnits (x - JNum.num 4000) - px, kiUnits (y - JNum.num 3000) - py⟩
    (angleOr0 pc)

/-- String-argument form of `kiCoordsN` (the source parses its string
arguments). -/
def kiCoords (T : Trig) (x y : String) (pc : Option IParentTransform) : JPoint :=
  kiCoordsN T (parseFloat x) (parseFloat y) pc


/-- Symbolic output tree node (`KiCadNode`): a tag/atom tree where `null`
marks a child the encoder omits; `jsVal` is a non-string JavaScript value
leaked into the tree (a member inherited from `Object.prototype`,
identified by its key). -/
inductive SExpr where
  | str : String → SExpr
  | num : JNum → SExpr
  | null : SExpr
  | jsVal : String → SExpr
  | list : List SExpr → SExpr

mutual

/-- Decidable equality on output nodes. -/
def SExpr.decEq : (a b : SExpr) → Decidable (a = b)
  | SExpr.str a, SExpr.str b =>
      if h : a = b then isTrue (by rw [h]) else isFalse (fun hc => h (by injection hc))
  | SExpr.num a, SExpr.num b =>
      if h : a = b then isTrue (by rw [h]) else isFalse (fun hc => h (by injection hc))
  | SExpr.null, SExpr.null => isTrue rfl
  | SExpr.jsVal a, SExpr.jsVal b =>
      if h : a = b then isTrue (by rw [h]) else isFalse (fun hc => h (by injection hc))
  | SExpr.list xs, SExpr.list ys =>
      match SExpr.decEqList xs ys with
      | isTrue h => isTrue (by rw [h])
      | isFalse h => isFalse (fun hc => h (by injection hc))
  | SExpr.str _, SExpr.num _ => isFalse (fun hc => by injection hc)
  | SExpr.str _, SExpr.null => isFalse (fun hc => by injection hc)
  | SExpr.str _, SExpr.list _ => isFalse (fun hc => by injection hc)
  | SExpr.num _, SExpr.str _ => isFalse (fun hc => by injection hc)
  | SExpr.num _, SExpr.null => isFalse (fun hc => by injection hc)
  | SExpr.num _, SExpr.list _ => isFalse (fun hc => by injection hc)
  | SExpr.null, SExpr.str _ => isFalse (fun hc => by injection hc)
  | SExpr.null, SExpr.num _ => isFalse (fun hc => by injection hc)
  | SExpr.null, SExpr.list _ => isFalse (fun hc => by injection hc)
  | SExpr.list _, SExpr.str _ => isFalse (fun hc => by injection hc)
  | SExpr.list _, SExpr.num _ => isFalse (fun hc => by injection hc)
  | SExpr.list _, SExpr.null => isFalse (fun hc => by injection hc)
  | SExpr.jsVal _, SExpr.str _ => isFalse (fun hc => by injection hc)
  | SExpr.jsVal _, SExpr.num _ => isFalse (fun hc => by injection hc)
  | SExpr.jsVal _, SExpr.null => isFalse (fun hc => by injection hc)
  | SExpr.jsVal _, SExpr.list _ => isFalse (fun hc => by injection hc)
  | SExpr.str _, SExpr.jsVal _ => isFalse (fun hc => by injection hc)
  | SExpr.num _, SExpr.jsVal _ => isFalse (fun hc => by injection hc)
  | SExpr.null, SExpr.jsVal _ => isFalse (fun hc => by injection hc)
  | SExpr.list _, SExpr.jsVal _ => isFalse (fun hc => by injection hc)

/-- Decidable equality on lists of output nodes. -/
def SExpr.decEqList : (xs ys : List SExpr) → Decidable (xs = ys)
  | [], [] => isTrue rfl
  | x :: xs, y :: ys =>
      match SExpr.decEq x y with
      | isTrue h1 =>
          match SExpr.decEqList xs ys with
          | isTrue h2 => isTrue (by rw [h1, h2])
          | isFalse h2 => isFalse (fun hc => h2 (by injection hc))
      | isFalse h1 => isFalse (fun hc => h1 (by injection hc))
  | [], _ :: _ => isFalse (fun hc => by injection hc)
  | _ :: _, [] => isFalse (fun hc => by injection hc)

end

instance : DecidableEq SExpr := SExpr.decEq

/-- Rational atom. -/
def sQ (q : ℚ) : SExpr := SExpr.num (JNum.num q)

/-- Integer atom. -/
def sZ (i : ℤ) : SExpr := SExpr.num (JNum.num (i : ℚ))

/-- JavaScript-number atom. -/
def sJ (n : JNum) : SExpr := SExpr.num n

/-- Indexing into a node's children (JavaScript `node[i]`, `null` when out
of range or not a list). -/
def SExpr.child : SExpr → ℕ → SExpr
  | SExpr.list l, i => l.getD i SExpr.null
  | _, _ => SExpr.null

/-- Property names JavaScript's `in` operator finds on `Object.prototype`
(the V8 runtime's twelve members): for these ids `id in layers` is true
even though the table has no own entry, and the indexed access returns
the inherited member instead. -/
def protoKeys : List String :=
  ["constructor", "hasOwnProperty", "isPrototypeOf", "propertyIsEnumerable",
   "toLocaleString", "toString", "valueOf", "__defineGetter__",
   "__defineSetter__", "__lookupGetter__", "__lookupSetter__", "__proto__"]

/-- Value produced by the layer lookup: a genuine layer-name string, or a
non-string member inherited from `Object.prototype` (a function, or the
prototype object itself for `__proto__`), identified by its key. -/
inductive LayerVal where
  | str : String → LayerVal
  | protoMember : String → LayerVal
deriving DecidableEq

/-- Emission of a layer value into the output tree: a genuine name is the
string atom; an inherited member is the leaked non-string value. -/
def LayerVal.render : LayerVal → SExpr
  | LayerVal.str s => SExpr.str s
  | LayerVal.protoMember k => SExpr.jsVal k

/-- The source's `layerName[0] === 'B'`: indexing an inherited member
yields undefined, which compares unequal to every character. -/
def LayerVal.headIsB : LayerVal → Bool
  | LayerVal.str s => s.data.head? = some 'B'
  | LayerVal.protoMember _ => false

/-- Conversion state threaded through every converter (`IConversionState`):
the net table and the running maximum internal-copper-layer index. -/
structure ConversionState where
  nets : List String
  innerLayers : ℕ
deriving DecidableEq

/-- Field access on the split record (`args[i]`); an absent field behaves
as JavaScript `undefined`, which parses to NaN and compares unequal to
every literal, exactly as the empty string does here. -/
def fld (args : List String) (i : ℕ) : String := args.getD i ""

/-- Generic split of a character list on a non-empty separator sequence
(JavaScript `String.prototype.split` with a string separator).  The fuel
argument keeps the recursion structural; every step consumes at least one
character, so starting the fuel at the list length the exhausted case is
never reached. -/
def splitSeqGo (sep : List Char) : ℕ → List Char → List Char → List (List Char)
  | _, [], acc => [acc.reverse]
  | 0, cs, acc => [acc.reverse ++ cs]
  | fuel + 1, c :: rest, acc =>
      if (c :: rest).take sep.length = sep then
        acc.reverse :: splitSeqGo sep fuel (rest.drop (sep.length - 1)) []
      else
        splitSeqGo sep fuel rest (c :: acc)

/-- JavaScript `s.split(sep)` for a non-empty string separator. -/
def jsplit (s sep : String) : List String :=
  (splitSeqGo sep.data s.data.length s.data []).map (fun l => String.mk l)

/-- JavaScript `s.replace(sub, repl)`; the layer names it is applied to
contain at most one occurrence, so replacing every occurrence agrees with
the first-occurrence semantics of the source. -/
def jreplaceAll (s sub repl : String) : String :=
  String.mk (List.intercalate repl.data (splitSeqGo sub.data s.data.length s.data []))

/-- Characters collapsed by the arc-path normalization `[,\s]+` → `' '`. -/
def sepChar (c : Char) : Bool := c = ',' ∨ c.isWhitespace

/-- Collapse every maximal run of separator characters to a single space. -/
def collapseRun : List Char → List Char
  | [] => []
  | [c] => [if sepChar c then ' ' else c]
  | a :: b :: rest =>
      if sepChar a ∧ sepChar b then collapseRun (b :: rest)
      else (if sepChar a then ' ' else a) :: collapseRun (b :: rest)

/-- The source's `path.replace(/[,\s]+/g, ' ')`. -/
def collapseSeps (s : String) : String := String.mk (collapseRun s.data)

/-- Character class `[-\d.\s]` of the arc-path regular expression. -/
def arcClass (c : Char) : Bool := c.isDigit ∨ c = '-' ∨ c = '.' ∨ c.isWhitespace

/-- Leading spaces of a captured group are absorbed by the greedy `\s*`
that precedes it, except that the group must stay non-empty. -/
def dropSpacesKeepOne (l : List Char) : List Char :=
  let t := l.dropWhile (fun c => c = ' ')
  if t.isEmpty then [' '] else t

/-- The source's `/^M\s*([-\d.\s]+)A\s*([-\d.\s]+)$/.exec(collapsed)`:
the two captured groups, or `none` when the path does not match. -/
def arcPathMatch (path : String) : Option (String × String) :=
  match (collapseSeps path).data with
  | 'M' :: rest =>
      let pre := rest.takeWhile arcClass
      let post := rest.dropWhile arcClass
      match post with
      | 'A' :: g2raw =>
          if pre.isEmpty ∨ g2raw.isEmpty ∨ ¬ (g2raw.all arcClass) then none
          else some (String.mk (dropSpacesKeepOne pre), String.mk (dropSpacesKeepOne g2raw))
      | _ => none
  | _ => none

/-- Own entries of the static layer table of `getLayerName` (string-keyed,
ids 1–8 and 10–15); the prototype chain behind the object literal is
handled in `getLayerName` itself. -/
def layerTable : String → Option String
  | "1" => some "F.Cu"
  | "2" => some "B.Cu"
  | "3" => some "F.SilkS"
  | "4" => some "B.SilkS"
  | "5" => some "F.Paste"
  | "6" => some "B.Paste"
  | "7" => some "F.Mask"
  | "8" => some "B.Mask"
  | "10" => some "Edge.Cuts"
  | "11" => some "Edge.Cuts"
  | "12" => some "Cmts.User"
  | "13" => some "F.Fab"
  | "14" => some "B.Fab"
  | "15" => some "Dwgs.User"
  | _ => none

/-- Layer resolution (`getLayerName`): the `id in layers` test finds both
the table's own entries and the members `Object.prototype` contributes, so
those twelve ids resolve to the inherited member without throwing; after
that the internal-copper band 21–50 (updating the running maximum), the
tolerated band `[99, 200)` yielding null, and otherwise a thrown error. -/
def getLayerName (id : String) (st : ConversionState) :
    Except String (Option LayerVal × ConversionState) :=
  match layerTable id with
  | some name => Except.ok (some (LayerVal.str name), st)
  | none =>
      if id ∈ protoKeys then Except.ok (some (LayerVal.protoMember id), st)
      else
        match parseIntTen id with
        | some n =>
            if 21 ≤ n ∧ n ≤ 50 then
              let innerLayerId := (n - 20).toNat
              Except.ok (some (LayerVal.str ("In" ++ Nat.repr innerLayerId ++ ".Cu")),
                { st with innerLayers := max st.innerLayers innerLayerId })
            else if 99 ≤ n ∧ n < 200 then Except.ok (none, st)
            else Except.error ("Missing layer id: " ++ id)
        | none => Except.error ("Missing layer id: " ++ id)

/-- The source's `layerName.endsWith('.Cu')`. -/
def isCopper (layerName : String) : Bool :=
  layerName.data.reverse.take 3 = ['u', 'C', '.']

/-- First index of a name in the net table (JavaScript `Array.indexOf`). -/
def listIdx : List String → String → Option ℕ
  | [], _ => none
  | x :: xs, a => if x = a then some 0 else (listIdx xs a).map (· + 1)

/-- Net interning (`getNetId`): a falsy (empty) name yields −1; a known
name yields its index; a new name is appended and yields the new last
index. -/
def getNetId (st : ConversionState) (netName : String) : ℤ × ConversionState :=
  if netName = "" then (-1, st)
  else
    match listIdx st.nets netName with
    | some i => ((i : ℤ), st)
    | none => ((st.nets.length : ℤ), { st with nets := st.nets ++ [netName] })

/-- Segment endpoints (`kiStartEnd` in board.ts). -/
def kiStartEnd (T : Trig) (startX startY endX endY : String)
    (pc : Option IParentTransform) : List SExpr :=
  let s := kiCoords T startX startY pc
  let e := kiCoords T endX endY pc
  [SExpr.list [SExpr.str "start", sJ s.x, sJ s.y],
   SExpr.list [SExpr.str "end", sJ e.x, sJ e.y]]

/-- Modelled from the spec: `kiAt` lives in common.ts, which is not under
src/.  Per §4.1 it emits an `at` node from the transformed point and the
normalized angle, a null angle meaning "omit the rotation field". -/
def kiAt (T : Trig) (x y : JNum) (angle : Option JNum)
    (pc : Option IParentTransform) : SExpr :=
  let c := kiCoordsN T x y pc
  SExpr.list [SExpr.str "at", sJ c.x, sJ c.y,
    (match angle with
     | some a => match kiAngleN a with | some q => sQ q | none => SExpr.null
     | none => SExpr.null)]

/-- Via conversion (`convertVia`). -/
def convertVia (T : Trig) (args : List String) (st : ConversionState)
    (pc : Option IParentTransform) : SExpr × ConversionState :=
  let x := fld args 0
  let y := fld args 1
  let diameter := fld args 2
  let net := fld args 3
  let drill := fld args 4
  let (netId, st1) := getNetId st net
  (SExpr.list [SExpr.str "via",
     kiAt T (parseFloat x) (parseFloat y) none pc,
     SExpr.list [SExpr.str "size", sJ (kiUnitsS diameter)],
     SExpr.list [SExpr.str "drill", sJ (kiUnitsS drill * JNum.num 2)],
     SExpr.list [SExpr.str "layers", SExpr.str "F.Cu", SExpr.str "B.Cu"],
     SExpr.list [SExpr.str "net", sZ netId]], st1)

/-- One emitted polyline segment of `convertTrack` (loop body at index `i`). -/
def trackSegment (T : Trig) (lineType : String) (coordList : List String)
    (widthS layerName : String) (netId : ℤ) (lockedS : String)
    (pc : Option IParentTransform) (i : ℕ) : SExpr :=
  SExpr.list ([SExpr.str lineType] ++
    kiStartEnd T (coordList.getD i "") (coordList.getD (i + 1) "")
      (coordList.getD (i + 2) "") (coordList.getD (i + 3) "") pc ++
    [SExpr.list [SExpr.str "width", sJ (kiUnitsS widthS)],
     SExpr.list [SExpr.str "layer", SExpr.str layerName],
     (if isCopper layerName ∧ 0 < netId then SExpr.list [SExpr.str "net", sZ netId]
      else SExpr.null),
     (if lockedS = "1" then SExpr.list [SExpr.str "status", sQ 40000] else SExpr.null)])

/-- Track conversion (`convertTrack`): net resolved first, layer next (an
unsupported layer drops the whole record), then one node per consecutive
coordinate pair; a non-copper layer downgrades `segment` to `gr_line`.  A
layer resolving to an inherited `Object.prototype` member throws when
`endsWith` is called on it: immediately for `segment` (the `lineType`
test), and in the first loop iteration otherwise (the net test), so a
polyline short enough to skip the loop survives. -/
def convertTrack (T : Trig) (args : List String) (st : ConversionState)
    (objName : String) (pc : Option IParentTransform) :
    Except String (List SExpr × ConversionState) :=
  let widthS := fld args 0
  let layer := fld args 1
  let net := fld args 2
  let coords := fld args 3
  let lockedS := fld args 5
  let (netId, st1) := getNetId st net
  let coordList := jsplit coords " "
  match getLayerName layer st1 with
  | Except.error e => Except.error e
  | Except.ok (none, st2) => Except.ok ([], st2)
  | Except.ok (some (LayerVal.str layerName), st2) =>
      let lineType :=
        if objName = "segment" ∧ ¬ isCopper layerName then "gr_line" else objName
      Except.ok ((List.range ((coordList.length - 1) / 2)).map
        (fun j => trackSegment T lineType coordList widthS layerName netId lockedS pc (2 * j)),
        st2)
  | Except.ok (some (LayerVal.protoMember _), st2) =>
      if objName = "segment" then
        Except.error "TypeError: layerName.endsWith is not a function"
      else if (coordList.length - 1) / 2 = 0 then Except.ok ([], st2)
      else Except.error "TypeError: layerName.endsWith is not a function"

/-- Layer of a text node (`textLayer`): for the name field of in-footprint
text, a silkscreen layer is substituted by the matching fabrication layer;
calling `.replace` on an inherited non-string member throws. -/
def textLayer (layer : String) (st : ConversionState) (footprint isName : Bool) :
    Except String (Option LayerVal × ConversionState) :=
  match getLayerName layer st with
  | Except.error e => Except.error e
  | Except.ok (layerName, st1) =>
      match layerName with
      | some lv =>
          if footprint ∧ isName then
            match lv with
            | LayerVal.str ln =>
                Except.ok (some (LayerVal.str (jreplaceAll ln ".SilkS" ".Fab")), st1)
            | LayerVal.protoMember _ =>
                Except.error "TypeError: layerName.replace is not a function"
          else Except.ok (some lv, st1)
      | none => Except.ok (none, st1)

/-- Font correction entry of the text converter (JavaScript numbers, so a
missing field reads as NaN). -/
structure FontMult where
  width : JNum
  height : JNum
  thickness : JNum

/-- Own entries of the font correction table (`fontTable` in
`convertText`). -/
def fontTable : String → Option FontMult
  | "NotoSerifCJKsc-Medium" => some ⟨JNum.num (0.8 : ℚ), JNum.num (0.8 : ℚ), JNum.num (0.3 : ℚ)⟩
  | "NotoSansCJKjp-DemiLight" => some ⟨JNum.num (0.6 : ℚ), JNum.num (0.6 : ℚ), JNum.num (0.5 : ℚ)⟩
  | _ => none

/-- The source's `font in fontTable ? fontTable[font] : default`: the `in`
test also finds the inherited `Object.prototype` members, whose width,
height and thickness fields are undefined and read as NaN in the
arithmetic; every other unknown font gets the default correction. -/
def fontLookup (font : String) : FontMult :=
  match fontTable font with
  | some m => m
  | none =>
      if font ∈ protoKeys then ⟨JNum.nan, JNum.nan, JNum.nan⟩
      else ⟨JNum.num (0.9 : ℚ), JNum.num 1, JNum.num (0.9 : ℚ)⟩

/-- Baseline x-offset of `convertText`: `0.5 * -1.28 - 1.5 * 1.28 * sin(angle)`. -/
def textXOffset (sinA : JNum) : JNum :=
  JNum.num ((0.5 : ℚ) * (-1.28 : ℚ)) - JNum.num ((1.5 : ℚ) * (1.28 : ℚ)) * sinA

/-- Baseline y-offset of `convertText`: `1.5 * -1.28 + 2.54 * sin(angle)`. -/
def textYOffset (sinA : JNum) : JNum :=
  JNum.num ((1.5 : ℚ) * (-1.28 : ℚ)) + JNum.num (2.54 : ℚ) * sinA

/-- Text conversion (`convertText`): resolves the (possibly substituted)
layer, applies the font correction, and emits the node at the
baseline-offset position; an unsupported layer yields null. -/
def convertText (T : Trig) (args : List String) (st : ConversionState)
    (objName : String) (pc : Option IParentTransform) :
    Except String (Option SExpr × ConversionState) :=
  let type := fld args 0
  let x := fld args 1
  let y := fld args 2
  let lineWidth := fld args 3
  let angle := fld args 4
  let layer := fld args 6
  let fontSize := fld args 8
  let text := fld args 9
  let display := fld args 11
  let font := fld args 13
  match textLayer layer st (objName = "fp_text") (type = "N") with
  | Except.error e => Except.error e
  | Except.ok (none, st1) => Except.ok (none, st1)
  | Except.ok (some lv, st1) =>
      let fontMultiplier := fontLookup font
      let actualFontWidth := kiUnitsS fontSize * fontMultiplier.width
      let actualFontHeight := kiUnitsS fontSize * fontMultiplier.height
      let sinA := jsin T (parseFloat angle)
      Except.ok (some (SExpr.list [
        SExpr.str objName,
        (if objName = "fp_text" then
           (if type = "P" then SExpr.str "reference" else SExpr.str "value")
         else SExpr.null),
        SExpr.str text,
        kiAt T (parseFloat x + textXOffset sinA) (parseFloat y + textYOffset sinA)
          (some (parseFloat angle)) pc,
        SExpr.list [SExpr.str "layer", lv.render],
        (if display = "none" then SExpr.str "hide" else SExpr.null),
        SExpr.list [SExpr.str "effects",
          SExpr.list [SExpr.str "font",
            SExpr.list [SExpr.str "size", sJ actualFontHeight, sJ actualFontWidth],
            SExpr.list [SExpr.str "thickness",
              sJ (kiUnitsS lineWidth * fontMultiplier.thickness)]],
          SExpr.list [SExpr.str "justify", SExpr.str "left",
            (if lv.headIsB then SExpr.str "mirror" else SExpr.null)]]]),
        st1)

/-- Result of the arc geometry solver (`computeArc` in svg-arc.ts): the
center coordinates (possibly NaN) and the swept angle. -/
structure ArcResult where
  cx : JNum
  cy : JNum
  extent : JNum

/-- Interface of the arc geometry solver.  svg-arc.ts is not under src/,
so the development treats the solver as an arbitrary function of the
start point, radii, axis rotation, large-arc and sweep flags, and end
point; every theorem about `convertArc` is proved for all solvers. -/
def ArcSolver : Type :=
  JNum → JNum → JNum → JNum → JNum → Bool → Bool → JNum → JNum → ArcResult

/-- Arc conversion (`convertArc`): resolves the layer first, matches the
path, runs the solver, and refuses to emit a node whose center is NaN;
the reference endpoint is the start point exactly when the sweep flag is
set. -/
def convertArc (T : Trig) (ca : ArcSolver) (args : List String)
    (st : ConversionState) (objName : String)
    (transform : Option IParentTransform) :
    Except String (Option SExpr × ConversionState) :=
  let widthS := fld args 0
  let layer := fld args 1
  let path := fld args 3
  match getLayerName layer st with
  | Except.error e => Except.error e
  | Except.ok (none, st1) => Except.ok (none, st1)
  | Except.ok (some lv, st1) =>
      match arcPathMatch path with
      | none => Except.ok (none, st1)
      | some (startPoint, arcParams) =>
          let sp := jsplit startPoint " "
          let ap := jsplit arcParams " "
          let start := kiCoords T (sp.getD 0 "") (sp.getD 1 "") transform
          let endP := kiCoords T (ap.getD 5 "") (ap.getD 6 "") transform
          let r := rotate T ⟨kiUnitsS (ap.getD 0 ""), kiUnitsS (ap.getD 1 "")⟩
                     (angleOr0 transform)
          let res := ca start.x start.y r.x r.y (parseFloat (ap.getD 2 ""))
                        (ap.getD 3 "" = "1") (ap.getD 4 "" = "1") endP.x endP.y
          let endPoint := if ap.getD 4 "" = "1" then start else endP
          if res.cx.isNaN ∨ res.cy.isNaN then Except.ok (none, st1)
          else
            Except.ok (some (SExpr.list [
              SExpr.str objName,
              SExpr.list [SExpr.str "start", sJ res.cx, sJ res.cy],
              SExpr.list [SExpr.str "end", sJ endPoint.x, sJ endPoint.y],
              SExpr.list [SExpr.str "angle", sJ res.extent.absJ],
              SExpr.list [SExpr.str "width", sJ (kiUnitsS widthS)],
              SExpr.list [SExpr.str "layer", lv.render]]), st1)

/-- Drill child of a pad (`getDrill`): an oval drill when both radius and
length are truthy, a round drill for a truthy radius alone, else null. -/
def getDrill (holeRadius holeLength : JNum) : SExpr :=
  if holeRadius.truthy ∧ holeLength.truthy then
    SExpr.list [SExpr.str "drill", SExpr.str "oval",
      sJ (holeRadius * JNum.num 2), sJ holeLength]
  else if holeRadius.truthy then
    SExpr.list [SExpr.str "drill", sJ (holeRadius * JNum.num 2)]
  else SExpr.null

/-- Rectangle detection for custom pad outlines (`isRectangle`): exactly
eight coordinates whose consecutive sides are axis-aligned up to 0.01. -/
def isRectangle (points : List JNum) : Bool :=
  if points.length ≠ 8 then false
  else
    let p := fun i => points.getD i JNum.nan
    let eq := fun (a b : JNum) => ((a - b).absJ).ltB (JNum.num (0.01 : ℚ))
    (eq (p 0) (p 2) && eq (p 3) (p 5) && eq (p 4) (p 6) && eq (p 7) (p 1)) ||
    (eq (p 1) (p 3) && eq (p 2) (p 4) && eq (p 5) (p 7) && eq (p 6) (p 0))

/-- Bounding-box size of a rectangular custom pad (`rectangleSize`),
swapping width and height when the rounded absolute rotation is 90 mod
180. -/
def rectangleSize (points : List JNum) (rotation : JNum) : JNum × JNum :=
  let p := fun i => points.getD i JNum.nan
  let width := JNum.jmax (JNum.jmax (JNum.jmax (p 0) (p 2)) (p 4)) (p 6) -
    JNum.jmin (JNum.jmin (JNum.jmin (p 0) (p 2)) (p 4)) (p 6)
  let height := JNum.jmax (JNum.jmax (JNum.jmax (p 1) (p 3)) (p 5)) (p 7) -
    JNum.jmin (JNum.jmin (JNum.jmin (p 1) (p 3)) (p 5)) (p 7)
  if ((rotation.absJ.roundJ).remJ (JNum.num 180)).eqQ 90 then (height, width)
  else (width, height)

/-- Polygon points from a coordinate string list (`pointListToPolygon`). -/
def pointListToPolygon (T : Trig) (points : List String)
    (pc : Option IParentTransform) : List SExpr :=
  (List.range ((points.length + 1) / 2)).map (fun j =>
    let c := kiCoords T (points.getD (2 * j) "") (points.getD (2 * j + 1) "") pc
    SExpr.list [SExpr.str "xy", sJ c.x, sJ c.y])

/-- Own entries of the pad shape enumeration (`padShapes`); an unknown
shape's indexed access yields undefined — or, for an `Object.prototype`
member name, the inherited value, which still compares unequal to the
string `custom`; both only differ in the leaked child the node carries. -/
def padShapes : String → Option String
  | "ELLIPSE" => some "circle"
  | "RECT" => some "rect"
  | "OVAL" => some "oval"
  | "POLYGON" => some "custom"
  | _ => none

/-- Layer lists of `convertPad` (`layers` object local to the function);
`none` models a lookup yielding either undefined or, for an
`Object.prototype` member name, the inherited non-iterable value — both
make the spread throw a TypeError. -/
def padLayerTable : String → Option (List String)
  | "1" => some ["F.Cu", "F.Paste", "F.Mask"]
  | "2" => some ["B.Cu", "B.Paste", "B.Mask"]
  | "11" => some ["*.Cu", "*.Mask"]
  | _ => none

/-- Pad conversion (`convertPad`): an empty custom outline is skipped with
a diagnostic; otherwise the net is interned and the node built — spreading
the layer list of an unknown pad layer id throws a TypeError, modelled as
an error result. -/
def convertPad (T : Trig) (args : List String) (st : ConversionState)
    (transform : IParentTransform) :
    Except String (Option SExpr × ConversionState) :=
  let shape := fld args 0
  let x := fld args 1
  let y := fld args 2
  let width := fld args 3
  let height := fld args 4
  let layerId := fld args 5
  let net := fld args 6
  let numF := fld args 7
  let holeRadius := fld args 8
  let points := fld args 9
  let rotation := fld args 10
  let holeLength := fld args 12
  let centerCoords := kiCoords T x y none
  let polygonTransform : IParentTransform :=
    ⟨centerCoords.x, centerCoords.y, some (parseFloat rotation)⟩
  let pointList := (jsplit points " ").map parseFloat
  let pointsAreRectangle := padShapes shape = some "custom" ∧ isRectangle pointList
  let actualShape := if pointsAreRectangle then "RECT" else shape
  let isCustomShape := padShapes actualShape = some "custom"
  if isCustomShape ∧ points.length = 0 then Except.ok (none, st)
  else
    let (netId, st1) := getNetId st net
    match padLayerTable layerId with
    | none => Except.error ("TypeError: undefined pad layer id: " ++ layerId)
    | some layerList =>
        let (actualWidth, actualHeight) :=
          if pointsAreRectangle then rectangleSize pointList (parseFloat rotation)
          else (parseFloat width, parseFloat height)
        let swap := actualWidth.gtB actualHeight
        let realWidth := if swap then actualHeight else actualWidth
        let realHeight := if swap then actualWidth else actualHeight
        let realRotation :=
          if swap then parseFloat rotation - JNum.num 90 else parseFloat rotation
        Except.ok (some (SExpr.list [
          SExpr.str "pad",
          (match parseIntTen numF with | some n => sZ n | none => SExpr.str numF),
          (if (kiUnitsS holeRadius).gtB (JNum.num 0) then SExpr.str "thru_hole"
           else SExpr.str "smd"),
          (match padShapes actualShape with
           | some s => SExpr.str s
           | none =>
               if actualShape ∈ protoKeys then SExpr.jsVal actualShape
               else SExpr.null),
          kiAt T (parseFloat x) (parseFloat y) (some realRotation) (some transform),
          SExpr.list [SExpr.str "size",
            sJ (JNum.jmax (kiUnits realWidth) (JNum.num (0.01 : ℚ))),
            sJ (JNum.jmax (kiUnits realHeight) (JNum.num (0.01 : ℚ)))],
          SExpr.list ([SExpr.str "layers"] ++ layerList.map SExpr.str),
          getDrill (kiUnitsS holeRadius) (kiUnitsS holeLength),
          (if 0 < netId then SExpr.list [SExpr.str "net", sZ netId, SExpr.str net]
           else SExpr.null),
          (if isCustomShape then
             SExpr.list [SExpr.str "primitives",
               SExpr.list [SExpr.str "gr_poly",
                 SExpr.list ([SExpr.str "pts"] ++
                   pointListToPolygon T (jsplit points " ") (some polygonTransform)),
                 SExpr.list [SExpr.str "width", sQ (0.1 : ℚ)]]]
           else SExpr.null)]), st1)

/-- Footprint-embedded non-plated hole (`convertLibHole`). -/
def convertLibHole (T : Trig) (args : List String)
    (transform : IParentTransform) : SExpr :=
  let x := fld args 0
  let y := fld args 1
  let radius := fld args 2
  let size := kiUnitsS radius * JNum.num 2
  SExpr.list [SExpr.str "pad", SExpr.str "", SExpr.str "np_thru_hole",
    SExpr.str "circle",
    kiAt T (parseFloat x) (parseFloat y) none (some transform),
    SExpr.list [SExpr.str "size", sJ size, sJ size],
    SExpr.list [SExpr.str "drill", sJ size],
    SExpr.list [SExpr.str "layers", SExpr.str "*.Cu", SExpr.str "*.Mask"]]

/-- Two-digit zero-padded decimal. -/
def padTwo (n : ℕ) : String := if n < 10 then "0" ++ Nat.repr n else Nat.repr n

/-- JavaScript `Number.prototype.toFixed(2)` (round to two decimals). -/
def JNum.toFixed2 : JNum → String
  | JNum.nan => "NaN"
  | JNum.num q =>
      let sign := if q < 0 then "-" else ""
      let n : ℕ := (⌊|q| * 100 + 1 / 2⌋ : ℤ).toNat
      sign ++ Nat.repr (n / 100) ++ "." ++ padTwo (n % 100)

/-- Circle conversion (`convertCircle`). -/
def convertCircle (T : Trig) (args : List String) (st : ConversionState)
    (type : String) (pc : Option IParentTransform) :
    Except String (Option SExpr × ConversionState) :=
  let x := fld args 0
  let y := fld args 1
  let radius := fld args 2
  let strokeWidth := fld args 3
  let layer := fld args 4
  match getLayerName layer st with
  | Except.error e => Except.error e
  | Except.ok (none, st1) => Except.ok (none, st1)
  | Except.ok (some lv, st1) =>
      let center := kiCoords T x y pc
      Except.ok (some (SExpr.list [
        SExpr.str type,
        SExpr.list [SExpr.str "center", sJ center.x, sJ center.y],
        SExpr.list [SExpr.str "end", sJ (center.x + kiUnitsS radius), sJ center.y],
        SExpr.list [SExpr.str "layer", lv.render],
        SExpr.list [SExpr.str "width", sJ (kiUnitsS strokeWidth)]]), st1)

/-- Separator class `[ ,LM]` of the path-to-polygon splits. -/
def isPathSep (c : Char) : Bool := c = ' ' ∨ c = ',' ∨ c = 'L' ∨ c = 'M'

/-- Split of a character list on the `[ ,LM]` class. -/
def splitClassGo : List Char → List Char → List (List Char)
  | [], acc => [acc.reverse]
  | c :: rest, acc =>
      if isPathSep c then acc.reverse :: splitClassGo rest []
      else splitClassGo rest (c :: acc)

/-- JavaScript `path.split(/[ ,LM]/)`. -/
def splitPath (s : String) : List String :=
  (splitClassGo s.data []).map (fun l => String.mk l)

/-- Path to polygon points (`pathToPolygon`): paths containing arcs are
unsupported and dropped. -/
def pathToPolygon (T : Trig) (path : String) (pc : Option IParentTransform) :
    Option (List SExpr) :=
  if path.data.any (fun c => c = 'A') then none
  else
    some (pointListToPolygon T
      ((splitPath path).filter (fun p => !(parseFloat p).isNaN)) pc)

/-- Footprint solid region (`convertPolygon`): only the `solid` subtype is
supported. -/
def convertPolygon (T : Trig) (args : List String) (st : ConversionState)
    (pc : Option IParentTransform) :
    Except String (Option SExpr × ConversionState) :=
  let layerId := fld args 0
  let path := fld args 2
  let type := fld args 3
  if type ≠ "solid" then Except.ok (none, st)
  else
    match getLayerName layerId st with
    | Except.error e => Except.error e
    | Except.ok (none, st1) => Except.ok (none, st1)
    | Except.ok (some lv, st1) =>
        match pathToPolygon T path pc with
        | none => Except.ok (none, st1)
        | some polygonPoints =>
            Except.ok (some (SExpr.list [
              SExpr.str "fp_poly",
              SExpr.list ([SExpr.str "pts"] ++ polygonPoints),
              SExpr.list [SExpr.str "layer", lv.render],
              SExpr.list [SExpr.str "width", sQ 0]]), st1)

/-- Copper zone conversion (`convertCopperArea`): the net is interned
before the layer is resolved, so the net table grows even for a dropped
zone. -/
def convertCopperArea (T : Trig) (args : List String) (st : ConversionState) :
    Except String (Option SExpr × ConversionState) :=
  let layerId := fld args 1
  let net := fld args 2
  let path := fld args 3
  let clearanceWidth := fld args 4
  let (netId, st1) := getNetId st net
  match getLayerName layerId st1 with
  | Except.error e => Except.error e
  | Except.ok (none, st2) => Except.ok (none, st2)
  | Except.ok (some lv, st2) =>
      let pointList := (splitPath path).filter (fun p => !(parseFloat p).isNaN)
      Except.ok (some (SExpr.list [
        SExpr.str "zone",
        SExpr.list [SExpr.str "net", sZ netId],
        SExpr.list [SExpr.str "net_name", SExpr.str net],
        SExpr.list [SExpr.str "layer", lv.render],
        SExpr.list [SExpr.str "hatch", SExpr.str "edge", sQ (0.508 : ℚ)],
        SExpr.list [SExpr.str "connect_pads",
          SExpr.list [SExpr.str "clearance", sJ (kiUnitsS clearanceWidth)]],
        SExpr.list [SExpr.str "polygon",
          SExpr.list ([SExpr.str "pts"] ++ pointListToPolygon T pointList none)]]), st2)

/-- Board-level solid region (`convertSolidRegion`): `cutout` becomes a
keep-out zone, `solid`/`npth` a filled polygon, anything else is dropped;
the net is interned even when the polygon is dropped. -/
def convertSolidRegion (T : Trig) (args : List String) (st : ConversionState) :
    Except String (Option SExpr × ConversionState) :=
  let layerId := fld args 0
  let net := fld args 1
  let path := fld args 2
  let type := fld args 3
  match getLayerName layerId st with
  | Except.error e => Except.error e
  | Except.ok (none, st1) => Except.ok (none, st1)
  | Except.ok (some lv, st1) =>
      let polygonPoints := pathToPolygon T path none
      let (netId, st2) := getNetId st1 net
      match polygonPoints with
      | none => Except.ok (none, st2)
      | some pts =>
          if type = "cutout" then
            Except.ok (some (SExpr.list [
              SExpr.str "zone",
              SExpr.list [SExpr.str "net", sZ netId],
              SExpr.list [SExpr.str "net_name", SExpr.str ""],
              SExpr.list [SExpr.str "hatch", SExpr.str "edge", sQ (0.508 : ℚ)],
              SExpr.list [SExpr.str "layer", lv.render],
              SExpr.list [SExpr.str "keepout",
                SExpr.list [SExpr.str "tracks", SExpr.str "allowed"],
                SExpr.list [SExpr.str "vias", SExpr.str "allowed"],
                SExpr.list [SExpr.str "copperpour", SExpr.str "not_allowed"]],
              SExpr.list [SExpr.str "polygon",
                SExpr.list ([SExpr.str "pts"] ++ pts)]]), st2)
          else if type = "solid" ∨ type = "npth" then
            Except.ok (some (SExpr.list [
              SExpr.str "gr_poly",
              SExpr.list ([SExpr.str "pts"] ++ pts),
              SExpr.list [SExpr.str "layer", lv.render],
              SExpr.list [SExpr.str "width", sQ 0]]), st2)
          else Except.ok (none, st2)

/-- Board-level non-plated hole (`convertHole`): a synthetic mounting-hole
module named from its diameter. -/
def convertHole (T : Trig) (args : List String) : SExpr :=
  let x := fld args 0
  let y := fld args 1
  let radius := fld args 2
  let locked := fld args 4
  let size := kiUnitsS radius * JNum.num 2
  SExpr.list [SExpr.str "module",
    SExpr.str ("AutoGenerated:MountingHole_" ++ size.toFixed2 ++ "mm"),
    (if locked = "1" then SExpr.str "locked" else SExpr.null),
    SExpr.list [SExpr.str "layer", SExpr.str "F.Cu"],
    kiAt T (parseFloat x) (parseFloat y) none none,
    SExpr.list [SExpr.str "attr", SExpr.str "virtual"],
    SExpr.list [SExpr.str "fp_text", SExpr.str "reference", SExpr.str "",
      SExpr.list [SExpr.str "at", sQ 0, sQ 0],
      SExpr.list [SExpr.str "layer", SExpr.str "F.SilkS"]],
    SExpr.list [SExpr.str "fp_text", SExpr.str "value", SExpr.str "",
      SExpr.list [SExpr.str "at", sQ 0, sQ 0],
      SExpr.list [SExpr.str "layer", SExpr.str "F.SilkS"]],
    SExpr.list [SExpr.str "pad", SExpr.str "", SExpr.str "np_thru_hole",
      SExpr.str "circle", SExpr.list [SExpr.str "at", sQ 0, sQ 0],
      SExpr.list [SExpr.str "size", sJ size, sJ size],
      SExpr.list [SExpr.str "drill", sJ size],
      SExpr.list [SExpr.str "layers", SExpr.str "*.Cu", SExpr.str "*.Mask"]]]

/-- Pad-as-via conversion (`convertPadToVia`): an ellipse-shaped pad
record becomes a true via; every other shape becomes a synthetic
single-pad module. -/
def convertPadToVia (T : Trig) (args : List String) (st : ConversionState)
    (pc : Option IParentTransform) :
    Except String (SExpr × ConversionState) :=
  let shape := fld args 0
  let x := fld args 1
  let y := fld args 2
  let holeRadius := fld args 3
  let net := fld args 6
  let drill := fld args 8
  let locked := fld args 15
  let size := kiUnitsS holeRadius
  if shape ≠ "ELLIPSE" then
    let c := kiCoords T x y none
    match convertPad T args st ⟨c.x, c.y, some (JNum.num 0)⟩ with
    | Except.error e => Except.error e
    | Except.ok (padNode, st1) =>
        Except.ok (SExpr.list [SExpr.str "module",
          SExpr.str ("AutoGenerated:Pad_" ++ size.toFixed2 ++ "mm"),
          (if locked = "1" then SExpr.str "locked" else SExpr.null),
          SExpr.list [SExpr.str "layer", SExpr.str "F.Cu"],
          kiAt T (parseFloat x) (parseFloat y) none none,
          SExpr.list [SExpr.str "attr", SExpr.str "virtual"],
          SExpr.list [SExpr.str "fp_text", SExpr.str "reference", SExpr.str "",
            SExpr.list [SExpr.str "at", sQ 0, sQ 0],
            SExpr.list [SExpr.str "layer", SExpr.str "F.SilkS"]],
          SExpr.list [SExpr.str "fp_text", SExpr.str "value", SExpr.str "",
            SExpr.list [SExpr.str "at", sQ 0, sQ 0],
            SExpr.list [SExpr.str "layer", SExpr.str "F.SilkS"]],
          (match padNode with | some n => n | none => SExpr.null)], st1)
  else
    let (netId, st1) := getNetId st net
    Except.ok (SExpr.list [SExpr.str "via",
      kiAt T (parseFloat x) (parseFloat y) none pc,
      SExpr.list [SExpr.str "size", sJ (kiUnitsS holeRadius)],
      SExpr.list [SExpr.str "drill", sJ (kiUnitsS drill * JNum.num 2)],
      SExpr.list [SExpr.str "layers", SExpr.str "F.Cu", SExpr.str "B.Cu"],
      SExpr.list [SExpr.str "net", sZ netId]], st1)

/-- Null-for-absent wrapper: a converter returning no node pushes a null
child (JavaScript `shapes.push(convert...(...))` with a null result). -/
def optNull : Option SExpr → SExpr
  | some s => s
  | none => SExpr.null

/-- Join of the raw fields back into one record string (`args.join('~')`). -/
def joinTilde (args : List String) : String :=
  String.mk (List.intercalate ['~'] (args.map String.data))

/-- Last-assignment-wins lookup in the parsed attribute pairs (JavaScript
object assignment in a loop). -/
def lookupLast (ps : List (String × String)) (k : String) : Option String :=
  (ps.reverse.find? (fun p => p.1 = k)).map (fun p => p.2)

/-- Surface-mount pad test of the footprint expander
(`shape && shape[0] === 'pad' && shape[2] === 'smd'`). -/
def isSmdPad (s : SExpr) : Bool :=
  match s with
  | SExpr.list l =>
      l.getD 0 SExpr.null = SExpr.str "pad" ∧ l.getD 2 SExpr.null = SExpr.str "smd"
  | _ => false

/-- Conversion of the embedded sub-shapes of a footprint, in order (the
loop body of `convertLib`); an unrecognized sub-shape type is skipped. -/
def convertLibShapes (T : Trig) (ca : ArcSolver) :
    List String → ConversionState → IParentTransform →
    Except String (List SExpr × ConversionState)
  | [], st, _ => Except.ok ([], st)
  | shape :: rest, st, tr =>
      let parts := jsplit shape "~"
      let type := parts.getD 0 ""
      let shapeArgs := parts.drop 1
      let step : Except String (List SExpr × ConversionState) :=
        if type = "TRACK" then
          convertTrack T shapeArgs st "fp_line" (some tr)
        else if type = "TEXT" then
          (convertText T shapeArgs st "fp_text" (some tr)).map
            (fun p => ([optNull p.1], p.2))
        else if type = "ARC" then
          (convertArc T ca shapeArgs st "fp_arc" (some tr)).map
            (fun p => ([optNull p.1], p.2))
        else if type = "HOLE" then
          Except.ok ([convertLibHole T shapeArgs tr], st)
        else if type = "PAD" then
          (convertPad T shapeArgs st tr).map (fun p => ([optNull p.1], p.2))
        else if type = "CIRCLE" then
          (convertCircle T shapeArgs st "fp_circle" (some tr)).map
            (fun p => ([optNull p.1], p.2))
        else if type = "SOLIDREGION" then
          (convertPolygon T shapeArgs st (some tr)).map
            (fun p => ([optNull p.1], p.2))
        else Except.ok ([], st)
      match step with
      | Except.error e => Except.error e
      | Except.ok (ns, st1) =>
          match convertLibShapes T ca rest st1 tr with
          | Except.error e => Except.error e
          | Except.ok (l, st2) => Except.ok (ns ++ l, st2)

/-- Footprint expansion (`convertLib`): parses the attribute string,
builds the composed transform, converts every embedded shape under it,
appends the informational label, and marks the module smd when any child
pad is surface-mount. -/
def convertLib (T : Trig) (ca : ArcSolver) (args : List String)
    (st : ConversionState) : Except String (SExpr × ConversionState) :=
  let x := fld args 0
  let y := fld args 1
  let attributes := fld args 2
  let rotation := fld args 3
  let id := fld args 5
  let locked := fld args 9
  let shapeList := (jsplit (joinTilde args) "#@$").drop 1
  let attrList := jsplit attributes "\x60"
  let attrPairs := (List.range ((attrList.length + 1) / 2)).map
    (fun j => (attrList.getD (2 * j) "", attrList.getD (2 * j + 1) ""))
  let c := kiCoords T x y none
  let transform : IParentTransform :=
    ⟨c.x, c.y, (kiAngle rotation).map (fun q => JNum.num q)⟩
  match convertLibShapes T ca shapeList st transform with
  | Except.error e => Except.error e
  | Except.ok (shapes0, st1) =>
      let shapes := shapes0 ++ [SExpr.list [SExpr.str "fp_text", SExpr.str "user",
        SExpr.str id, SExpr.list [SExpr.str "at", sQ 0, sQ 0],
        SExpr.list [SExpr.str "layer", SExpr.str "Cmts.User"],
        SExpr.list [SExpr.str "effects",
          SExpr.list [SExpr.str "font",
            SExpr.list [SExpr.str "size", sQ 1, sQ 1],
            SExpr.list [SExpr.str "thickness", sQ (0.15 : ℚ)]]]]]
      let modAttrs : List SExpr :=
        if shapes.any isSmdPad then [SExpr.list [SExpr.str "attr", SExpr.str "smd"]]
        else []
      let package :=
        match lookupLast attrPairs "package" with
        | some v => if v = "" then id else v
        | none => id
      Except.ok (SExpr.list ([SExpr.str "module",
        SExpr.str ("easyeda:" ++ package),
        (if locked = "1" then SExpr.str "locked" else SExpr.null),
        SExpr.list [SExpr.str "layer", SExpr.str "F.Cu"],
        kiAt T (parseFloat x) (parseFloat y) (some (parseFloat rotation)) none] ++
        modAttrs ++ shapes), st1)

/-- Top-level shape dispatch (`convertShape`): one branch per record kind;
an unsupported kind yields null (which the assembler later filters). -/
def convertShape (T : Trig) (ca : ArcSolver) (shape : String)
    (st : ConversionState) :
    Except String (Option (List SExpr) × ConversionState) :=
  let parts := jsplit shape "~"
  let type := parts.getD 0 ""
  let args := parts.drop 1
  if type = "VIA" then
    let (n, st1) := convertVia T args st none
    Except.ok (some [n], st1)
  else if type = "TRACK" then
    (convertTrack T args st "segment" none).map (fun p => (some p.1, p.2))
  else if type = "TEXT" then
    (convertText T args st "gr_text" none).map (fun p => (some [optNull p.1], p.2))
  else if type = "ARC" then
    (convertArc T ca args st "gr_arc" none).map (fun p => (some [optNull p.1], p.2))
  else if type = "COPPERAREA" then
    (convertCopperArea T args st).map (fun p => (some [optNull p.1], p.2))
  else if type = "SOLIDREGION" then
    (convertSolidRegion T args st).map (fun p => (some [optNull p.1], p.2))
  else if type = "CIRCLE" then
    (convertCircle T args st "gr_circle" none).map (fun p => (some [optNull p.1], p.2))
  else if type = "HOLE" then
    Except.ok (some [convertHole T args], st)
  else if type = "LIB" then
    (convertLib T ca args st).map (fun p => (some [p.1], p.2))
  else if type = "PAD" then
    (convertPadToVia T args st none).map (fun p => (some [p.1], p.2))
  else Except.ok (none, st)

/-- Input board: the optional router rule carrying the net-name list, and
the raw shape records. -/
structure RouterRule where
  nets : List String

/-- Input document (`IEasyEDABoard`, restricted to the fields the
converter reads). -/
structure Board where
  routerRule : Option RouterRule
  shape : List String

/-- Net list of the input (`input.routerRule || { nets: [] }`). -/
def netsOf (b : Board) : List String :=
  match b.routerRule with
  | some r => r.nets
  | none => []

/-- Sequential conversion of the top-level shape records, threading the
conversion state in source order; a null result becomes a null element of
the flattened list (`flatten` over the mapped results). -/
def convertShapes (T : Trig) (ca : ArcSolver) :
    List String → ConversionState → Except String (List SExpr × ConversionState)
  | [], st => Except.ok ([], st)
  | s :: rest, st =>
      match convertShape T ca s st with
      | Except.error e => Except.error e
      | Except.ok (o, st1) =>
          match convertShapes T ca rest st1 with
          | Except.error e => Except.error e
          | Except.ok (l, st2) =>
              Except.ok ((match o with
                | none => [SExpr.null]
                | some xs => xs) ++ l, st2)

/-- Static tail of the output layer table (back copper onward). -/
def staticLayersTail : List SExpr :=
  [SExpr.list [sQ 31, SExpr.str "B.Cu", SExpr.str "signal"],
   SExpr.list [sQ 32, SExpr.str "B.Adhes", SExpr.str "user"],
   SExpr.list [sQ 33, SExpr.str "F.Adhes", SExpr.str "user"],
   SExpr.list [sQ 34, SExpr.str "B.Paste", SExpr.str "user"],
   SExpr.list [sQ 35, SExpr.str "F.Paste", SExpr.str "user"],
   SExpr.list [sQ 36, SExpr.str "B.SilkS", SExpr.str "user"],
   SExpr.list [sQ 37, SExpr.str "F.SilkS", SExpr.str "user"],
   SExpr.list [sQ 38, SExpr.str "B.Mask", SExpr.str "user"],
   SExpr.list [sQ 39, SExpr.str "F.Mask", SExpr.str "user"],
   SExpr.list [sQ 40, SExpr.str "Dwgs.User", SExpr.str "user"],
   SExpr.list [sQ 41, SExpr.str "Cmts.User", SExpr.str "user"],
   SExpr.list [sQ 42, SExpr.str "Eco1.User", SExpr.str "user"],
   SExpr.list [sQ 43, SExpr.str "Eco2.User", SExpr.str "user"],
   SExpr.list [sQ 44, SExpr.str "Edge.Cuts", SExpr.str "user"],
   SExpr.list [sQ 45, SExpr.str "Margin", SExpr.str "user"],
   SExpr.list [sQ 46, SExpr.str "B.CrtYd", SExpr.str "user"],
   SExpr.list [sQ 47, SExpr.str "F.CrtYd", SExpr.str "user"],
   SExpr.list [sQ 48, SExpr.str "B.Fab", SExpr.str "user", SExpr.str "hide"],
   SExpr.list [sQ 49, SExpr.str "F.Fab", SExpr.str "user", SExpr.str "hide"]]

/-- Dynamically discovered internal copper layer entries, 1 through the
running maximum. -/
def innerLayerNodes (k : ℕ) : List SExpr :=
  (List.range k).map (fun i =>
    SExpr.list [sQ (((i + 1 : ℕ) : ℚ)),
      SExpr.str ("In" ++ Nat.repr (i + 1) ++ ".Cu"), SExpr.str "signal"])

/-- Whole-board conversion (`convertBoardToArray`): seeds the net table by
prepending the empty name to the input's own net list (the source mutates
that list in place via `unshift`; the returned state's `nets` is the final
content of that shared list), converts all shapes sequentially, and
assembles the document with the final net table and layer table.  The
final conversion state is returned alongside the document so the effect on
the caller-owned net list is observable. -/
def convertBoardToArray (T : Trig) (ca : ArcSolver) (b : Board) :
    Except String (SExpr × ConversionState) :=
  let nets0 := netsOf b
  let st0 : ConversionState := ⟨"" :: nets0, 0⟩
  match convertShapes T ca b.shape st0 with
  | Except.error e => Except.error e
  | Except.ok (shapes, st1) =>
      let netNodes := st1.nets.enum.map (fun p =>
        SExpr.list [SExpr.str "net", sQ (p.1 : ℚ), SExpr.str p.2])
      let outputObjs := (netNodes ++ shapes).filter
        (fun o => decide (o ≠ SExpr.null))
      let layersNode := SExpr.list
        ([SExpr.str "layers", SExpr.list [sQ 0, SExpr.str "F.Cu", SExpr.str "signal"]] ++
         innerLayerNodes st1.innerLayers ++ staticLayersTail)
      Except.ok (SExpr.list ([SExpr.str "kicad_pcb",
        SExpr.list [SExpr.str "version", sQ 20171130],
        SExpr.list [SExpr.str "host", SExpr.str "pcbnew", SExpr.str "(5.1.5)-3"],
        SExpr.list [SExpr.str "page", SExpr.str "A4"],
        layersNode] ++ outputObjs), st1)

/-- Concrete trigonometric evaluation used by witnesses: every record they
evaluate carries the angle 0, where the real `Math.sin`/`Math.cos` return
exactly 0 and 1. -/
def trigZero : Trig := ⟨fun _ => 0, fun _ => 1⟩

/-- Solver fixture whose center is always NaN (a degenerate arc). -/
def arcSolverNaN : ArcSolver :=
  fun _ _ _ _ _ _ _ _ _ => ⟨JNum.nan, JNum.nan, JNum.num 0⟩

/-- Solver fixture with a well-defined center. -/
def arcSolverConst : ArcSolver :=
  fun _ _ _ _ _ _ _ _ _ => ⟨JNum.num 5, JNum.num 5, JNum.num 90⟩

/-- The early-skip guard of `convertPad`: a custom-outline pad whose point
list is empty (`isCustomShape && !points.length`). -/
def padEarlyReturn (args : List String) : Bool :=
  let shape := fld args 0
  let points := fld args 9
  let pointList := (jsplit points " ").map parseFloat
  let pointsAreRectangle := padShapes shape = some "custom" ∧ isRectangle pointList
  let actualShape := if pointsAreRectangle then "RECT" else shape
  decide (padShapes actualShape = some "custom") && points.length == 0

/-- Text record fixture (board-level label on the front silkscreen, angle 0). -/
def c2TextArgs : List String :=
  ["L", "4000", "3000", "1", "0", "", "3", "", "9", "hi", "", "", "id1", "", ""]

/-- Board-level node produced from the text fixture. -/
def c2GrNode : SExpr :=
  match convertText trigZero c2TextArgs ⟨[""], 0⟩ "gr_text" none with
  | Except.ok (some n, _) => n
  | _ => SExpr.null

/-- In-footprint node produced from the text fixture. -/
def c2FpNode : SExpr :=
  match convertText trigZero c2TextArgs ⟨[""], 0⟩ "fp_text" none with
  | Except.ok (some n, _) => n
  | _ => SExpr.null

/-- Pad record fixture (rectangular smd pad on layer 1, net GND). -/
def c7PadArgs : List String :=
  ["RECT", "4000", "3000", "4", "4", "1", "GND", "1", "0", "", "0", "p1", "0", "", "", ""]

/-- Node produced from the pad fixture. -/
def c7PadNode : SExpr :=
  match convertPad trigZero c7PadArgs ⟨[""], 0⟩ ⟨JNum.num 0, JNum.num 0, some (JNum.num 0)⟩ with
  | Except.ok (some n, _) => n
  | _ => SExpr.null

/-- Track record fixture: three points on the front silkscreen. -/
def c8TrackArgs : List String :=
  ["0.2", "3", "", "2000 2000 2000 2100 2100 2100", "g1", "0"]

/-- Result produced from the track fixture. -/
def c8Res : List SExpr × ConversionState :=
  match convertTrack trigZero c8TrackArgs ⟨[""], 0⟩ "segment" none with
  | Except.ok p => p
  | Except.error _ => ([], ⟨[], 0⟩)

/-- Arc record fixture on the front copper layer with a sweep flag of 1. -/
def c9ArcArgs : List String :=
  ["1", "1", "", "M 4000 3000 A 10 10 0 0 1 4050 3050", "", "a1", "0"]

/-- Document produced from the single-net, zero-shape board fixture. -/
def c3Out : SExpr :=
  match convertBoardToArray trigZero arcSolverConst ⟨some ⟨["A"]⟩, []⟩ with
  | Except.ok (o, _) => o
  | Except.error _ => SExpr.null

/-- Final state produced from the single-net, zero-shape board fixture. -/
def c3St : ConversionState :=
  match convertBoardToArray trigZero arcSolverConst ⟨some ⟨["A"]⟩, []⟩ with
  | Except.ok (_, s) => s
  | Except.error _ => ⟨[], 0⟩

/-- Net-table extension order: the second state's net table is the first
one with zero or more names appended (the append-only discipline). -/
def NetsExt (st st2 : ConversionState) : Prop :=
  ∃ t, st2.nets = st.nets ++ t

theorem netsExt_self (st : ConversionState) : NetsExt st st :=
  ⟨[], (List.append_nil _).symm⟩

theorem netsExt_trans {a b c : ConversionState} (h1 : NetsExt a b)
    (h2 : NetsExt b c) : NetsExt a c := by
  obtain ⟨t1, e1⟩ := h1
  obtain ⟨t2, e2⟩ := h2
  exact ⟨t1 ++ t2, by rw [e2, e1, List.append_assoc]⟩

theorem getNetId_netsExt (st : ConversionState) (n : String) :
    NetsExt st ((getNetId st n).2) := by
  unfold getNetId
  split
  · exact netsExt_self st
  · split
    · exact netsExt_self st
    · exact ⟨[n], rfl⟩

theorem getLayerName_nets {id : String} {st : ConversionState}
    {r : Option LayerVal × ConversionState} (h : getLayerName id st = Except.ok r) :
    r.2.nets = st.nets := by
  unfold getLayerName at h
  split at h
  · rw [Except.ok.injEq] at h; subst h; rfl
  · split at h
    · rw [Except.ok.injEq] at h; subst h; rfl
    · split at h
      · split at h
        · rw [Except.ok.injEq] at h; subst h; rfl
        · split at h
          · rw [Except.ok.injEq] at h; subst h; rfl
          · exact Except.noConfusion h
      · exact Except.noConfusion h

theorem getLayerName_inner_mono {id : String} {st : ConversionState}
    {r : Option LayerVal × ConversionState} (h : getLayerName id st = Except.ok r) :
    st.innerLayers ≤ r.2.innerLayers := by
  unfold getLayerName at h
  split at h
  · rw [Except.ok.injEq] at h; subst h; exact Nat.le_refl _
  · split at h
    · rw [Except.ok.injEq] at h; subst h; exact Nat.le_refl _
    · split at h
      · split at h
        · rw [Except.ok.injEq] at h; subst h; exact Nat.le_max_left _ _
        · split at h
          · rw [Except.ok.injEq] at h; subst h; exact Nat.le_refl _
          · exact Except.noConfusion h
      · exact Except.noConfusion h

theorem textLayer_nets {layer : String} {st : ConversionState} {fp nm : Bool}
    {r : Option LayerVal × ConversionState} (h : textLayer layer st fp nm = Except.ok r) :
    r.2.nets = st.nets := by
  unfold textLayer at h
  split at h
  · exact Except.noConfusion h
  · rename_i p heq
    have hn := getLayerName_nets heq
    split at h
    · split at h
      · split at h
        · rw [Except.ok.injEq] at h; subst h; exact hn
        · exact Except.noConfusion h
      · rw [Except.ok.injEq] at h; subst h; exact hn
    · rw [Except.ok.injEq] at h; subst h; exact hn

theorem netsExt_of_eq {st1 st2 : ConversionState} (h : st2.nets = st1.nets) :
    NetsExt st1 st2 :=
  ⟨[], by rw [h, List.append_nil]⟩


theorem convertVia_netsExt (T : Trig) (args : List String) (st : ConversionState)
    (pc : Option IParentTransform) : NetsExt st (convertVia T args st pc).2 := by
  have hg := getNetId_netsExt st (fld args 3)
  unfold convertVia
  simp only []
  rcases he : getNetId st (fld args 3) with ⟨a, b⟩
  rw [he] at hg
  simpa using hg

theorem convertTrack_netsExt {T : Trig} {args : List String} {st : ConversionState}
    {objName : String} {pc : Option IParentTransform}
    {p : List SExpr × ConversionState}
    (h : convertTrack T args st objName pc = Except.ok p) : NetsExt st p.2 := by
  have hg := getNetId_netsExt st (fld args 2)
  unfold convertTrack at h
  simp only [] at h
  rcases he : getNetId st (fld args 2) with ⟨a, b⟩
  rw [he] at h hg
  simp only [] at h hg
  split at h
  · exact Except.noConfusion h
  · rename_i heq
    rw [Except.ok.injEq] at h; subst h
    exact netsExt_trans hg (netsExt_of_eq (getLayerName_nets heq))
  · rename_i heq
    rw [Except.ok.injEq] at h; subst h
    exact netsExt_trans hg (netsExt_of_eq (getLayerName_nets heq))
  · rename_i heq
    split at h
    · exact Except.noConfusion h
    · split at h
      · rw [Except.ok.injEq] at h; subst h
        exact netsExt_trans hg (netsExt_of_eq (getLayerName_nets heq))
      · exact Except.noConfusion h

theorem convertText_netsExt {T : Trig} {args : List String} {st : ConversionState}
    {objName : String} {pc : Option IParentTransform}
    {p : Option SExpr × ConversionState}
    (h : convertText T args st objName pc = Except.ok p) : NetsExt st p.2 := by
  unfold convertText at h
  simp only [] at h
  split at h
  · exact Except.noConfusion h
  · rename_i heq
    rw [Except.ok.injEq] at h; subst h
    exact netsExt_of_eq (textLayer_nets heq)
  · rename_i heq
    rw [Except.ok.injEq] at h; subst h
    exact netsExt_of_eq (textLayer_nets heq)

theorem convertArc_netsExt {T : Trig} {ca : ArcSolver} {args : List String}
    {st : ConversionState} {objName : String} {tr : Option IParentTransform}
    {p : Option SExpr × ConversionState}
    (h : convertArc T ca args st objName tr = Except.ok p) : NetsExt st p.2 := by
  unfold convertArc at h
  simp only [] at h
  split at h
  · exact Except.noConfusion h
  · rename_i heq
    rw [Except.ok.injEq] at h; subst h
    exact netsExt_of_eq (getLayerName_nets heq)
  · rename_i heq
    have hn := netsExt_of_eq (getLayerName_nets heq)
    split at h
    · rw [Except.ok.injEq] at h; subst h
      exact hn
    · split at h
      · rw [Except.ok.injEq] at h; subst h
        exact hn
      · rw [Except.ok.injEq] at h; subst h
        exact hn

theorem convertCircle_netsExt {T : Trig} {args : List String} {st : ConversionState}
    {type : String} {pc : Option IParentTransform}
    {p : Option SExpr × ConversionState}
    (h : convertCircle T args st type pc = Except.ok p) : NetsExt st p.2 := by
  unfold convertCircle at h
  simp only [] at h
  split at h
  · exact Except.noConfusion h
  · rename_i heq
    rw [Except.ok.injEq] at h; subst h
    exact netsExt_of_eq (getLayerName_nets heq)
  · rename_i heq
    rw [Except.ok.injEq] at h; subst h
    exact netsExt_of_eq (getLayerName_nets heq)

theorem convertPolygon_netsExt {T : Trig} {args : List String} {st : ConversionState}
    {pc : Option IParentTransform} {p : Option SExpr × ConversionState}
    (h : convertPolygon T args st pc = Except.ok p) : NetsExt st p.2 := by
  unfold convertPolygon at h
  simp only [] at h
  split at h
  · rw [Except.ok.injEq] at h; subst h
    exact netsExt_self st
  · split at h
    · exact Except.noConfusion h
    · rename_i heq
      rw [Except.ok.injEq] at h; subst h
      exact netsExt_of_eq (getLayerName_nets heq)
    · rename_i heq
      have hn := netsExt_of_eq (getLayerName_nets heq)
      split at h
      · rw [Except.ok.injEq] at h; subst h
        exact hn
      · rw [Except.ok.injEq] at h; subst h
        exact hn

theorem convertPad_netsExt {T : Trig} {args : List String} {st : ConversionState}
    {tr : IParentTransform} {p : Option SExpr × ConversionState}
    (h : convertPad T args st tr = Except.ok p) : NetsExt st p.2 := by
  have hg := getNetId_netsExt st (fld args 6)
  unfold convertPad at h
  simp only [] at h
  rcases he : getNetId st (fld args 6) with ⟨a, b⟩
  rw [he] at h hg
  simp only [] at h hg
  split at h
  · split at h
    · rw [Except.ok.injEq] at h; subst h
      exact netsExt_self st
    · split at h
      · exact Except.noConfusion h
      · rw [Except.ok.injEq] at h; subst h
        exact hg
  · split at h
    · rw [Except.ok.injEq] at h; subst h
      exact netsExt_self st
    · split at h
      · exact Except.noConfusion h
      · rw [Except.ok.injEq] at h; subst h
        exact hg

theorem convertCopperArea_netsExt {T : Trig} {args : List String}
    {st : ConversionState} {p : Option SExpr × ConversionState}
    (h : convertCopperArea T args st = Except.ok p) : NetsExt st p.2 := by
  have hg := getNetId_netsExt st (fld args 2)
  unfold convertCopperArea at h
  simp only [] at h
  rcases he : getNetId st (fld args 2) with ⟨a, b⟩
  rw [he] at h hg
  simp only [] at h hg
  split at h
  · exact Except.noConfusion h
  · rename_i heq
    rw [Except.ok.injEq] at h; subst h
    exact netsExt_trans hg (netsExt_of_eq (getLayerName_nets heq))
  · rename_i heq
    rw [Except.ok.injEq] at h; subst h
    exact netsExt_trans hg (netsExt_of_eq (getLayerName_nets heq))

theorem convertSolidRegion_netsExt {T : Trig} {args : List String}
    {st : ConversionState} {p : Option SExpr × ConversionState}
    (h : convertSolidRegion T args st = Except.ok p) : NetsExt st p.2 := by
  unfold convertSolidRegion at h
  simp only [] at h
  split at h
  · exact Except.noConfusion h
  · rename_i heq
    rw [Except.ok.injEq] at h; subst h
    exact netsExt_of_eq (getLayerName_nets heq)
  · rename_i st1 heq
    have hl := netsExt_of_eq (getLayerName_nets heq)
    have hg := getNetId_netsExt st1 (fld args 1)
    rcases he : getNetId st1 (fld args 1) with ⟨a, b⟩
    rw [he] at h hg
    simp only [] at h hg
    have hext := netsExt_trans hl hg
    split at h
    · rw [Except.ok.injEq] at h; subst h
      exact hext
    · split at h
      · rw [Except.ok.injEq] at h; subst h
        exact hext
      · split at h
        · rw [Except.ok.injEq] at h; subst h
          exact hext
        · rw [Except.ok.injEq] at h; subst h
          exact hext

theorem convertPadToVia_netsExt {T : Trig} {args : List String}
    {st : ConversionState} {pc : Option IParentTransform}
    {p : SExpr × ConversionState}
    (h : convertPadToVia T args st pc = Except.ok p) : NetsExt st p.2 := by
  have hg := getNetId_netsExt st (fld args 6)
  unfold convertPadToVia at h
  simp only [] at h
  split at h
  · split at h
    · exact Except.noConfusion h
    · rename_i heq
      rw [Except.ok.injEq] at h; subst h
      exact convertPad_netsExt heq
  · rcases he : getNetId st (fld args 6) with ⟨a, b⟩
    rw [he] at h hg
    simp only [] at h hg
    rw [Except.ok.injEq] at h; subst h
    exact hg


theorem except_map_ok {α β : Type} {f : α → β} {x : Except String α} {b : β}
    (h : x.map f = Except.ok b) : ∃ a, x = Except.ok a ∧ b = f a := by
  cases hx : x with
  | error e =>
      rw [hx] at h
      exact Except.noConfusion h
  | ok a =>
      rw [hx] at h
      simp only [Except.map, Except.ok.injEq] at h
      exact ⟨a, rfl, h.symm⟩

set_option maxHeartbeats 1000000 in
theorem convertLibShapes_netsExt {T : Trig} {ca : ArcSolver} :
    ∀ {shapes : List String} {st : ConversionState} {tr : IParentTransform}
      {p : List SExpr × ConversionState},
      convertLibShapes T ca shapes st tr = Except.ok p → NetsExt st p.2 := by
  intro shapes
  induction shapes with
  | nil =>
      intro st tr p h
      unfold convertLibShapes at h
      rw [Except.ok.injEq] at h; subst h
      exact netsExt_self st
  | cons s rest ih =>
      intro st tr p h
      unfold convertLibShapes at h
      simp only [] at h
      split at h
      · exact Except.noConfusion h
      · rename_i ns st1 heq
        split at h
        · exact Except.noConfusion h
        · rename_i l st2 heq2
          have hrest := ih heq2
          rw [Except.ok.injEq] at h; subst h
          refine netsExt_trans ?_ hrest
          split at heq
          · exact convertTrack_netsExt heq
          · split at heq
            · obtain ⟨q, hq, hb⟩ := except_map_ok heq
              rw [Prod.mk.injEq] at hb
              obtain ⟨hb1, hb2⟩ := hb
              rw [hb2]
              exact convertText_netsExt hq
            · split at heq
              · obtain ⟨q, hq, hb⟩ := except_map_ok heq
                rw [Prod.mk.injEq] at hb
                obtain ⟨hb1, hb2⟩ := hb
                rw [hb2]
                exact convertArc_netsExt hq
              · split at heq
                · rw [Except.ok.injEq, Prod.mk.injEq] at heq
                  obtain ⟨h1, h2⟩ := heq
                  rw [← h2]
                  exact netsExt_self st
                · split at heq
                  · obtain ⟨q, hq, hb⟩ := except_map_ok heq
                    rw [Prod.mk.injEq] at hb
                    obtain ⟨hb1, hb2⟩ := hb
                    rw [hb2]
                    exact convertPad_netsExt hq
                  · split at heq
                    · obtain ⟨q, hq, hb⟩ := except_map_ok heq
                      rw [Prod.mk.injEq] at hb
                      obtain ⟨hb1, hb2⟩ := hb
                      rw [hb2]
                      exact convertCircle_netsExt hq
                    · split at heq
                      · obtain ⟨q, hq, hb⟩ := except_map_ok heq
                        rw [Prod.mk.injEq] at hb
                        obtain ⟨hb1, hb2⟩ := hb
                        rw [hb2]
                        exact convertPolygon_netsExt hq
                      · rw [Except.ok.injEq, Prod.mk.injEq] at heq
                        obtain ⟨h1, h2⟩ := heq
                        rw [← h2]
                        exact netsExt_self st

theorem convertLib_netsExt {T : Trig} {ca : ArcSolver} {args : List String}
    {st : ConversionState} {p : SExpr × ConversionState}
    (h : convertLib T ca args st = Except.ok p) : NetsExt st p.2 := by
  unfold convertLib at h
  simp only [] at h
  split at h
  · exact Except.noConfusion h
  · rename_i shapes0 st1 heq
    rw [Except.ok.injEq] at h; subst h
    exact convertLibShapes_netsExt heq

set_option maxHeartbeats 1600000 in
theorem convertShape_netsExt {T : Trig} {ca : ArcSolver} {s : String}
    {st : ConversionState} {p : Option (List SExpr) × ConversionState}
    (h : convertShape T ca s st = Except.ok p) : NetsExt st p.2 := by
  unfold convertShape at h
  simp only [] at h
  split at h
  · rw [Except.ok.injEq] at h; subst h
    exact convertVia_netsExt T (List.drop 1 (jsplit s "~")) st none
  · split at h
    · obtain ⟨q, hq, hb⟩ := except_map_ok h
      rw [hb]
      exact convertTrack_netsExt hq
    · split at h
      · obtain ⟨q, hq, hb⟩ := except_map_ok h
        rw [hb]
        exact convertText_netsExt hq
      · split at h
        · obtain ⟨q, hq, hb⟩ := except_map_ok h
          rw [hb]
          exact convertArc_netsExt hq
        · split at h
          · obtain ⟨q, hq, hb⟩ := except_map_ok h
            rw [hb]
            exact convertCopperArea_netsExt hq
          · split at h
            · obtain ⟨q, hq, hb⟩ := except_map_ok h
              rw [hb]
              exact convertSolidRegion_netsExt hq
            · split at h
              · obtain ⟨q, hq, hb⟩ := except_map_ok h
                rw [hb]
                exact convertCircle_netsExt hq
              · split at h
                · rw [Except.ok.injEq] at h; subst h
                  exact netsExt_self st
                · split at h
                  · obtain ⟨q, hq, hb⟩ := except_map_ok h
                    rw [hb]
                    exact convertLib_netsExt hq
                  · split at h
                    · obtain ⟨q, hq, hb⟩ := except_map_ok h
                      rw [hb]
                      exact convertPadToVia_netsExt hq
                    · rw [Except.ok.injEq] at h; subst h
                      exact netsExt_self st

theorem convertShapes_netsExt {T : Trig} {ca : ArcSolver} :
    ∀ {shapes : List String} {st : ConversionState}
      {p : List SExpr × ConversionState},
      convertShapes T ca shapes st = Except.ok p → NetsExt st p.2 := by
  intro shapes
  induction shapes with
  | nil =>
      intro st p h
      unfold convertShapes at h
      rw [Except.ok.injEq] at h; subst h
      exact netsExt_self st
  | cons s rest ih =>
      intro st p h
      unfold convertShapes at h
      split at h
      · exact Except.noConfusion h
      · rename_i o st1 heq
        split at h
        · exact Except.noConfusion h
        · rename_i l st2 heq2
          have hrest := ih heq2
          rw [Except.ok.injEq] at h; subst h
          exact netsExt_trans (convertShape_netsExt heq) hrest

theorem listIdx_zero {l : List String} {a : String}
    (h : listIdx l a = some 0) : l.head? = some a := by
  cases l with
  | nil => exact Option.noConfusion h
  | cons x xs =>
      unfold listIdx at h
      by_cases hx : x = a
      · subst hx; rfl
      · rw [if_neg hx] at h
        cases hxs : listIdx xs a with
        | none => rw [hxs] at h; exact Option.noConfusion h
        | some i =>
            rw [hxs] at h
            simp at h

/-- C4: for every angle string parsing to a number A in `[0, 360)` the
normalization returns A when `A ≤ 180` and `A - 360` when `A > 180`, the
result lying in `(-180, 180]`; an unparseable angle yields null, never
zero. -/
theorem kiAngle_c4 (s : String) :
    (∀ A : ℚ, parseFloat s = JNum.num A → 0 ≤ A → A < 360 →
      kiAngle s = some (if A ≤ 180 then A else A - 360) ∧
      -180 < (if A ≤ 180 then A else A - 360) ∧
      (if A ≤ 180 then A else A - 360) ≤ 180) ∧
    (parseFloat s = JNum.nan → kiAngle s = none) := by
  constructor
  · intro A hA h0 h360
    refine ⟨?_, ?_⟩
    · unfold kiAngle
      rw [hA]
      show some (if 180 < A then -(360 - A) else A) =
        some (if A ≤ 180 then A else A - 360)
      congr 1
      split_ifs with h1 h2 <;> linarith
    · split_ifs with h1 <;> constructor <;> linarith
  · intro h
    unfold kiAngle
    rw [h]
    rfl

/-- C4 witness: the angle 270 normalizes to −90 and a non-numeric angle
to null. -/
theorem kiAngle_c4_witness :
    (parseFloat "270" = JNum.num 270 ∧
      kiAngle "270" = some (if (270 : ℚ) ≤ 180 then 270 else 270 - 360)) ∧
    (parseFloat "abc" = JNum.nan ∧ kiAngle "abc" = none) :=
  ⟨⟨by decide, ((kiAngle_c4 "270").1 270 (by decide) (by norm_num) (by norm_num)).1⟩,
   ⟨by decide, (kiAngle_c4 "abc").2 (by decide)⟩⟩

/-- C5: the unit conversion is exactly multiplication by 0.254
(equivalently by 10 and then 0.0254), and the angle normalization never
scales its argument — it returns the angle unchanged or shifted by one
full turn. -/
theorem kiUnits_c5 :
    (∀ L : ℚ, kiUnits (JNum.num L) = JNum.num (L * (0.254 : ℚ)) ∧
      kiUnits (JNum.num L) = JNum.num (L * 10 * (0.0254 : ℚ))) ∧
    (∀ A : ℚ, kiAngleN (JNum.num A) = some A ∨
      kiAngleN (JNum.num A) = some (A - 360)) := by
  constructor
  · intro L
    constructor
    · show JNum.num (L * 10 * (0.0254 : ℚ)) = JNum.num (L * (0.254 : ℚ))
      norm_num
      ring
    · rfl
  · intro A
    by_cases h : (180 : ℚ) < A
    · right
      show some (if 180 < A then -(360 - A) else A) = some (A - 360)
      rw [if_pos h]
      congr 1
      ring
    · left
      show some (if 180 < A then -(360 - A) else A) = some A
      rw [if_neg h]

/-- C1 counterexample: with the net table pre-seeded with `""` at index
0, resolving the explicitly empty name yields −1, not 0 — the claimed
distinction between empty and absent does not exist in the code. -/
theorem getNetId_c1_counterexample :
    getNetId ⟨[""], 0⟩ "" = (-1, (⟨[""], 0⟩ : ConversionState)) ∧
    (getNetId ⟨[""], 0⟩ "").1 ≠ 0 := by decide

/-- C1 (amended): resolving the empty string yields −1 exactly as an
absent name does (the two cases are merged by the falsiness guard), and
once the table is seeded with `""` at index 0 that entry is preserved and
no resolution ever returns 0. -/
theorem getNetId_c1 :
    (∀ st : ConversionState, getNetId st "" = (-1, st)) ∧
    (∀ (st : ConversionState) (n : String), st.nets.head? = some "" →
      (getNetId st n).2.nets.head? = some "" ∧ (getNetId st n).1 ≠ 0) := by
  constructor
  · intro st
    unfold getNetId
    rw [if_pos rfl]
  · intro st n hh
    unfold getNetId
    by_cases hn : n = ""
    · subst hn
      rw [if_pos rfl]
      exact ⟨hh, by simp⟩
    · rw [if_neg hn]
      cases hidx : listIdx st.nets n with
      | some i =>
          simp only []
          refine ⟨hh, ?_⟩
          intro h0
          have hi : i = 0 := by exact_mod_cast h0
          subst hi
          have := listIdx_zero hidx
          rw [this] at hh
          exact hn (Option.some.inj hh)
      | none =>
          simp only []
          constructor
          · cases hsn : st.nets with
            | nil => rw [hsn] at hh; exact Option.noConfusion hh
            | cons x xs =>
                rw [hsn] at hh
                simpa using hh
          · cases hsn : st.nets with
            | nil => rw [hsn] at hh; exact Option.noConfusion hh
            | cons x xs =>
                simp only [List.length_cons]
                intro hc
                rw [Int.natCast_eq_zero] at hc
                exact Nat.succ_ne_zero _ hc

/-- C1 witness: the seeded single-entry table keeps `""` at index 0 after
interning a new name, whose id is nonzero. -/
theorem getNetId_c1_witness :
    (([""] : List String).head? = some "") ∧
    ((getNetId ⟨[""], 0⟩ "GND").2.nets.head? = some "" ∧
      (getNetId ⟨[""], 0⟩ "GND").1 ≠ 0) :=
  ⟨by decide, (getNetId_c1).2 ⟨[""], 0⟩ "GND" (by decide)⟩

/-- C6 counterexample: the id `"toString"` has no own entry in the static
table and parses as no integer, yet the resolver does not throw — the
JavaScript `in` operator consults the prototype chain, so the lookup
finds the inherited `Object.prototype.toString` member and the indexed
access returns that non-string value, letting the conversion proceed. -/
theorem getLayerName_c6_counterexample :
    layerTable "toString" = none ∧
    parseIntTen "toString" = none ∧
    getLayerName "toString" ⟨[], 0⟩ =
      Except.ok (some (LayerVal.protoMember "toString"), ⟨[], 0⟩) := by
  refine ⟨by decide, by decide, ?_⟩
  decide

/-- C6 (amended): for an id carrying no inherited `Object.prototype`
member, the claimed bands hold — 21–50 resolves to the internal copper
layer `In(id−20).Cu` raising the running maximum, `[99, 200)` resolves
to null without raising, and any other id outside the static table makes
the resolver throw; but an id naming an inherited member (such as
`"toString"`) is found by the `in` operator on the prototype chain and
is returned as the inherited non-string value instead of throwing. The
running maximum is monotonically non-decreasing across calls. -/
theorem getLayerName_c6 :
    (∀ (s : String) (n : ℤ) (st : ConversionState),
      layerTable s = none → s ∉ protoKeys → parseIntTen s = some n →
      21 ≤ n → n ≤ 50 →
      getLayerName s st =
        Except.ok (some (LayerVal.str ("In" ++ Nat.repr (n - 20).toNat ++ ".Cu")),
          ⟨st.nets, max st.innerLayers (n - 20).toNat⟩)) ∧
    (∀ (s : String) (n : ℤ) (st : ConversionState),
      layerTable s = none → s ∉ protoKeys → parseIntTen s = some n →
      99 ≤ n → n < 200 →
      getLayerName s st = Except.ok (none, st)) ∧
    (∀ (s : String) (st : ConversionState),
      layerTable s = none → s ∈ protoKeys →
      getLayerName s st = Except.ok (some (LayerVal.protoMember s), st)) ∧
    (∀ (s : String) (st : ConversionState),
      layerTable s = none → s ∉ protoKeys →
      (∀ n, parseIntTen s = some n → (n < 21 ∨ 50 < n) ∧ (n < 99 ∨ 200 ≤ n)) →
      getLayerName s st = Except.error ("Missing layer id: " ++ s)) ∧
    (∀ (s : String) (st : ConversionState) (r : Option LayerVal × ConversionState),
      getLayerName s st = Except.ok r → st.innerLayers ≤ r.2.innerLayers) := by
  refine ⟨?_, ?_, ?_, ?_, ?_⟩
  · intro s n st hlt hpk hp h21 h50
    unfold getLayerName
    rw [hlt]
    simp only []
    rw [if_neg hpk, hp]
    simp only []
    rw [if_pos ⟨h21, h50⟩]
  · intro s n st hlt hpk hp h99 h200
    unfold getLayerName
    rw [hlt]
    simp only []
    rw [if_neg hpk, hp]
    simp only []
    rw [if_neg (by omega), if_pos ⟨h99, h200⟩]
  · intro s st hlt hpk
    unfold getLayerName
    rw [hlt]
    simp only []
    rw [if_pos hpk]
  · intro s st hlt hpk hb
    unfold getLayerName
    rw [hlt]
    simp only []
    rw [if_neg hpk]
    cases hp : parseIntTen s with
    | none => rfl
    | some n =>
        obtain ⟨hA, hB⟩ := hb n hp
        simp only []
        rw [if_neg (by omega), if_neg (by omega)]
  · exact fun s st r h => getLayerName_inner_mono h

/-- C6 witness: id 21 yields `In1.Cu` with the maximum raised to 1, id
150 yields null, id `"toString"` yields the inherited member without
throwing, id 9 throws, and the maximum never decreased. -/
theorem getLayerName_c6_witness :
    getLayerName "21" ⟨[], 0⟩ =
      Except.ok (some (LayerVal.str ("In" ++ Nat.repr ((21 : ℤ) - 20).toNat ++ ".Cu")),
        ⟨[], max 0 ((21 : ℤ) - 20).toNat⟩) ∧
    getLayerName "150" ⟨[], 0⟩ = Except.ok (none, ⟨[], 0⟩) ∧
    getLayerName "toString" ⟨[], 0⟩ =
      Except.ok (some (LayerVal.protoMember "toString"), ⟨[], 0⟩) ∧
    getLayerName "9" ⟨[], 0⟩ = Except.error ("Missing layer id: " ++ "9") ∧
    (0 : ℕ) ≤ (⟨[], 1⟩ : ConversionState).innerLayers :=
  ⟨getLayerName_c6.1 "21" 21 ⟨[], 0⟩ (by decide) (by decide) (by decide)
     (by decide) (by decide),
   getLayerName_c6.2.1 "150" 150 ⟨[], 0⟩ (by decide) (by decide) (by decide)
     (by decide) (by decide),
   getLayerName_c6.2.2.1 "toString" ⟨[], 0⟩ (by decide) (by decide),
   getLayerName_c6.2.2.2.1 "9" ⟨[], 0⟩ (by decide) (by decide)
     (fun n hn => by
       have : n = 9 := by
         have := hn
         rw [show parseIntTen "9" = some 9 from by decide] at this
         exact (Option.some.inj this).symm
       omega),
   getLayerName_c6.2.2.2.2 "21" ⟨[], 0⟩ (some (LayerVal.str "In1.Cu"), ⟨[], 1⟩)
     (by decide)⟩

/-- C3 counterexample: converting a board whose router rule holds the
single net name "A" leaves the shared net list as `["", "A"]` — the
converter mutates its input by prepending the empty name. -/
theorem convertBoardToArray_c3_counterexample :
    (match convertBoardToArray trigZero arcSolverConst ⟨some ⟨["A"]⟩, []⟩ with
     | Except.ok (_, st) => st.nets
     | Except.error _ => []) = ["", "A"] ∧
    (["", "A"] : List String) ≠ ["A"] := by decide

/-- C3 (amended): the conversion mutates the caller-owned net list in
place: the empty name is prepended once before any shape is converted,
and afterwards the list only ever grows by appending new names at the
end, so existing indices stay stable. -/
theorem convertBoardToArray_c3 :
    (∀ (st : ConversionState) (n : String),
      ∃ t, (getNetId st n).2.nets = st.nets ++ t) ∧
    (∀ (T : Trig) (ca : ArcSolver) (b : Board) (out : SExpr)
       (stF : ConversionState),
      convertBoardToArray T ca b = Except.ok (out, stF) →
      ∃ t, stF.nets = "" :: (netsOf b ++ t)) := by
  constructor
  · intro st n
    exact getNetId_netsExt st n
  · intro T ca b out stF h
    unfold convertBoardToArray at h
    simp only [] at h
    split at h
    · exact Except.noConfusion h
    · rename_i shapes st1 heq
      rw [Except.ok.injEq, Prod.mk.injEq] at h
      obtain ⟨h1, h2⟩ := h
      subst h2
      obtain ⟨t, ht⟩ := convertShapes_netsExt heq
      refine ⟨t, ?_⟩
      rw [ht]
      rfl

/-- C3 witness: interning GND appends it, and converting the fixture
board yields a final list that is the seeded input list plus a suffix. -/
theorem convertBoardToArray_c3_witness :
    (∃ t, (getNetId ⟨[""], 0⟩ "GND").2.nets = [""] ++ t) ∧
    (∃ t, c3St.nets = "" :: (netsOf ⟨some ⟨["A"]⟩, []⟩ ++ t)) :=
  ⟨convertBoardToArray_c3.1 ⟨[""], 0⟩ "GND",
   convertBoardToArray_c3.2 trigZero arcSolverConst ⟨some ⟨["A"]⟩, []⟩ c3Out c3St
     (by decide)⟩

/-- C7: a via node always carries a net child holding the resolved id
(whatever its value, 0 included), while a pad node carries a net child
exactly when the resolved id is strictly positive, and null otherwise. -/
theorem convertVia_convertPad_c7 :
    (∀ (T : Trig) (args : List String) (st : ConversionState)
       (pc : Option IParentTransform),
      (convertVia T args st pc).1.child 5 =
        SExpr.list [SExpr.str "net", sZ (getNetId st (fld args 3)).1]) ∧
    (∀ (T : Trig) (args : List String) (st : ConversionState)
       (tr : IParentTransform) (node : SExpr) (st1 : ConversionState),
      convertPad T args st tr = Except.ok (some node, st1) →
      node.child 8 =
        (if 0 < (getNetId st (fld args 6)).1 then
          SExpr.list [SExpr.str "net", sZ (getNetId st (fld args 6)).1,
            SExpr.str (fld args 6)]
         else SExpr.null)) := by
  constructor
  · intro T args st pc
    unfold convertVia
    simp only []
    rcases he : getNetId st (fld args 3) with ⟨a, b⟩
    rfl
  · intro T args st tr node st1 h
    unfold convertPad at h
    simp only [] at h
    rcases he : getNetId st (fld args 6) with ⟨a, b⟩
    rw [he] at h
    split at h
    · split at h
      · rw [Except.ok.injEq, Prod.mk.injEq] at h
        obtain ⟨h1, h2⟩ := h
        exact Option.noConfusion h1
      · split at h
        · exact Except.noConfusion h
        · rw [Except.ok.injEq, Prod.mk.injEq] at h
          obtain ⟨h1, h2⟩ := h
          have hn := Option.some.inj h1
          rw [← hn]
          rfl
    · split at h
      · rw [Except.ok.injEq, Prod.mk.injEq] at h
        obtain ⟨h1, h2⟩ := h
        exact Option.noConfusion h1
      · split at h
        · exact Except.noConfusion h
        · rw [Except.ok.injEq, Prod.mk.injEq] at h
          obtain ⟨h1, h2⟩ := h
          have hn := Option.some.inj h1
          rw [← hn]
          rfl

/-- C7 witness: a via with an empty net name still carries its net child
(id −1), and the GND pad fixture carries `net 1 GND` at child 8. -/
theorem convertVia_convertPad_c7_witness :
    (convertVia trigZero ["4000", "3000", "10", "", "5", "v1", "0"]
        ⟨[""], 0⟩ none).1.child 5 =
      SExpr.list [SExpr.str "net",
        sZ (getNetId ⟨[""], 0⟩ (fld ["4000", "3000", "10", "", "5", "v1", "0"] 3)).1] ∧
    c7PadNode.child 8 =
      (if 0 < (getNetId ⟨[""], 0⟩ (fld c7PadArgs 6)).1 then
        SExpr.list [SExpr.str "net", sZ (getNetId ⟨[""], 0⟩ (fld c7PadArgs 6)).1,
          SExpr.str (fld c7PadArgs 6)]
       else SExpr.null) :=
  ⟨convertVia_convertPad_c7.1 trigZero ["4000", "3000", "10", "", "5", "v1", "0"]
      ⟨[""], 0⟩ none,
   convertVia_convertPad_c7.2 trigZero c7PadArgs ⟨[""], 0⟩
      ⟨JNum.num 0, JNum.num 0, some (JNum.num 0)⟩ c7PadNode ⟨["", "GND"], 0⟩
      (by decide)⟩

/-- C2 counterexample: a board-level (`gr_text`) label at source position
(4000, 3000) with angle 0 is emitted at the baseline-offset position, not
at the unadjusted position — the offset is not restricted to in-footprint
text. -/
theorem convertText_c2_counterexample :
    c2GrNode.child 3 =
      kiAt trigZero (parseFloat "4000" + textXOffset (JNum.num 0))
        (parseFloat "3000" + textYOffset (JNum.num 0))
        (some (parseFloat "0")) none ∧
    c2GrNode.child 3 ≠
      kiAt trigZero (parseFloat "4000") (parseFloat "3000")
        (some (parseFloat "0")) none := by decide

/-- C2 (amended): the baseline-offset formula is applied to every text
record regardless of node kind — for the same record the board-level and
in-footprint nodes carry the identical offset position, which is the
declared position shifted by the rotation-dependent offsets. -/
theorem convertText_c2 (T : Trig) (args : List String) (st : ConversionState)
    (pc : Option IParentTransform) (n1 n2 : SExpr) (st1 st2 : ConversionState)
    (h1 : convertText T args st "gr_text" pc = Except.ok (some n1, st1))
    (h2 : convertText T args st "fp_text" pc = Except.ok (some n2, st2)) :
    n1.child 3 = n2.child 3 ∧
    n1.child 3 = kiAt T
      (parseFloat (fld args 1) + textXOffset (jsin T (parseFloat (fld args 4))))
      (parseFloat (fld args 2) + textYOffset (jsin T (parseFloat (fld args 4))))
      (some (parseFloat (fld args 4))) pc := by
  unfold convertText at h1 h2
  simp only [] at h1 h2
  split at h1
  · exact Except.noConfusion h1
  · rw [Except.ok.injEq, Prod.mk.injEq] at h1
    exact Option.noConfusion h1.1
  · rw [Except.ok.injEq, Prod.mk.injEq] at h1
    obtain ⟨e1, e1s⟩ := h1
    have hn1 := Option.some.inj e1
    split at h2
    · exact Except.noConfusion h2
    · rw [Except.ok.injEq, Prod.mk.injEq] at h2
      exact Option.noConfusion h2.1
    · rw [Except.ok.injEq, Prod.mk.injEq] at h2
      obtain ⟨e2, e2s⟩ := h2
      have hn2 := Option.some.inj e2
      rw [← hn1, ← hn2]
      constructor <;> rfl

/-- C2 witness: the fixture record's board-level and in-footprint nodes
share the same offset position. -/
theorem convertText_c2_witness :
    c2GrNode.child 3 = c2FpNode.child 3 ∧
    c2GrNode.child 3 = kiAt trigZero
      (parseFloat (fld c2TextArgs 1) +
        textXOffset (jsin trigZero (parseFloat (fld c2TextArgs 4))))
      (parseFloat (fld c2TextArgs 2) +
        textYOffset (jsin trigZero (parseFloat (fld c2TextArgs 4))))
      (some (parseFloat (fld c2TextArgs 4))) none :=
  convertText_c2 trigZero c2TextArgs ⟨[""], 0⟩ none c2GrNode c2FpNode
    ⟨[""], 0⟩ ⟨[""], 0⟩ (by decide) (by decide)

/-- C10 counterexample: a custom-outline (POLYGON) pad record with an
empty point list and the unknown layer id 3 is skipped (null result)
before the layer lookup, so not every such record makes the conversion
throw. -/
theorem convertPad_c10_counterexample :
    padLayerTable "3" = none ∧
    convertPad trigZero
      ["POLYGON", "0", "0", "4", "4", "3", "", "1", "0", "", "0", "p1", "0", "", "", ""]
      ⟨[""], 0⟩ ⟨JNum.num 0, JNum.num 0, some (JNum.num 0)⟩ =
      Except.ok (none, ⟨[""], 0⟩) := by decide

/-- C10 (amended): for every pad record that is not an empty-pointed
custom polygon (those are skipped with a diagnostic before the lookup), a
layer id outside the pad layer table makes the converter throw — the
undefined lookup is spread — aborting the conversion instead of skipping
the pad. -/
theorem convertPad_c10 (T : Trig) (args : List String) (st : ConversionState)
    (tr : IParentTransform) (hlt : padLayerTable (fld args 5) = none)
    (hskip : padEarlyReturn args = false) :
    ∃ msg, convertPad T args st tr = Except.error msg := by
  refine ⟨"TypeError: undefined pad layer id: " ++ fld args 5, ?_⟩
  unfold convertPad
  simp only []
  split
  · have hne : ¬(padShapes "RECT" = some "custom" ∧ (fld args 9).length = 0) := by
      intro hx
      exact absurd hx.1 (by decide)
    rw [if_neg hne, hlt]
  · rename_i hc
    have hne : ¬(padShapes (fld args 0) = some "custom" ∧ (fld args 9).length = 0) := by
      intro hx
      unfold padEarlyReturn at hskip
      simp only [] at hskip
      rw [if_neg hc] at hskip
      simp [hx.1, hx.2] at hskip
    rw [if_neg hne, hlt]

/-- C10 witness: a rectangular pad on the unknown layer id 3 makes the
converter throw. -/
theorem convertPad_c10_witness :
    padLayerTable
      (fld ["RECT", "0", "0", "4", "4", "3", "", "1", "0", "", "0", "p1", "0", "", "", ""] 5) =
      none ∧
    padEarlyReturn
      ["RECT", "0", "0", "4", "4", "3", "", "1", "0", "", "0", "p1", "0", "", "", ""] = false ∧
    ∃ msg, convertPad trigZero
      ["RECT", "0", "0", "4", "4", "3", "", "1", "0", "", "0", "p1", "0", "", "", ""]
      ⟨[""], 0⟩ ⟨JNum.num 0, JNum.num 0, some (JNum.num 0)⟩ = Except.error msg :=
  ⟨by decide, by decide,
   convertPad_c10 trigZero
     ["RECT", "0", "0", "4", "4", "3", "", "1", "0", "", "0", "p1", "0", "", "", ""]
     ⟨[""], 0⟩ ⟨JNum.num 0, JNum.num 0, some (JNum.num 0)⟩ (by decide) (by decide)⟩

/-- C8: a track record whose coordinate list holds 2N entries (N points,
N ≥ 2) and whose layer resolves produces exactly N−1 nodes; every node
shares the record's width, layer, net and lock children, and its kind is
`segment` on a copper layer and `gr_line` otherwise. -/
theorem convertTrack_c8 (T : Trig) (args : List String) (st : ConversionState)
    (pc : Option IParentTransform) (N : ℕ) (lname : String)
    (st2 : ConversionState) (res : List SExpr × ConversionState)
    (hN : (jsplit (fld args 3) " ").length = 2 * N) (h2 : 2 ≤ N)
    (hl : getLayerName (fld args 1) (getNetId st (fld args 2)).2 =
      Except.ok (some (LayerVal.str lname), st2))
    (hres : convertTrack T args st "segment" pc = Except.ok res) :
    res.1.length = N - 1 ∧
    ∀ s ∈ res.1, ∃ a b : SExpr,
      s = SExpr.list ([SExpr.str (if isCopper lname = true then "segment" else "gr_line"),
        a, b] ++
        [SExpr.list [SExpr.str "width", sJ (kiUnitsS (fld args 0))],
         SExpr.list [SExpr.str "layer", SExpr.str lname],
         (if isCopper lname ∧ 0 < (getNetId st (fld args 2)).1 then
            SExpr.list [SExpr.str "net", sZ (getNetId st (fld args 2)).1]
          else SExpr.null),
         (if fld args 5 = "1" then SExpr.list [SExpr.str "status", sQ 40000]
          else SExpr.null)]) := by
  unfold convertTrack at hres
  simp only [] at hres
  rw [hl] at hres
  simp only [] at hres
  rw [Except.ok.injEq] at hres
  subst hres
  constructor
  · simp only [List.length_map, List.length_range, hN]
    omega
  · intro s hs
    rw [List.mem_map] at hs
    obtain ⟨j, hj, hseq⟩ := hs
    rw [← hseq]
    have hflip : (if isCopper lname = true then "segment" else "gr_line")
        = (if True ∧ ¬isCopper lname = true then "gr_line" else "segment") := by
      by_cases hc : isCopper lname = true
      · rw [if_pos hc, if_neg (fun hx => hx.2 hc)]
      · rw [if_neg hc, if_pos ⟨trivial, hc⟩]
    rw [hflip]
    exact ⟨_, _, rfl⟩

/-- C8 witness: the three-point silkscreen track fixture yields exactly
two nodes. -/
theorem convertTrack_c8_witness : c8Res.1.length = 3 - 1 :=
  (convertTrack_c8 trigZero c8TrackArgs ⟨[""], 0⟩ none 3 "F.SilkS" ⟨[""], 0⟩
    c8Res (by decide) (by decide) (by decide) (by decide)).1

/-- C9: for an arc record with a matching path and a resolvable layer,
whatever the geometry solver computes: a NaN center coordinate makes the
converter return null (no NaN reaches the output), and otherwise the
emitted reference endpoint is the start point exactly when the sweep flag
is `1` and the end point otherwise. -/
theorem convertArc_c9 (T : Trig) (ca : ArcSolver) (args : List String)
    (st : ConversionState) (objName : String) (tr : Option IParentTransform)
    (lname : String) (st1 : ConversionState) (sp ap : String)
    (start endP r : JPoint) (res : ArcResult)
    (hl : getLayerName (fld args 1) st = Except.ok (some (LayerVal.str lname), st1))
    (hm : arcPathMatch (fld args 3) = some (sp, ap))
    (hstart : start =
      kiCoords T ((jsplit sp " ").getD 0 "") ((jsplit sp " ").getD 1 "") tr)
    (hend : endP =
      kiCoords T ((jsplit ap " ").getD 5 "") ((jsplit ap " ").getD 6 "") tr)
    (hr : r = rotate T
      ⟨kiUnitsS ((jsplit ap " ").getD 0 ""), kiUnitsS ((jsplit ap " ").getD 1 "")⟩
      (angleOr0 tr))
    (hres : res = ca start.x start.y r.x r.y (parseFloat ((jsplit ap " ").getD 2 ""))
      ((jsplit ap " ").getD 3 "" = "1") ((jsplit ap " ").getD 4 "" = "1")
      endP.x endP.y) :
    ((res.cx.isNaN || res.cy.isNaN) = true →
      convertArc T ca args st objName tr = Except.ok (none, st1)) ∧
    ((res.cx.isNaN || res.cy.isNaN) = false →
      ∃ node, convertArc T ca args st objName tr = Except.ok (some node, st1) ∧
        node.child 2 = SExpr.list [SExpr.str "end",
          sJ (if (jsplit ap " ").getD 4 "" = "1" then start else endP).x,
          sJ (if (jsplit ap " ").getD 4 "" = "1" then start else endP).y]) := by
  subst hstart hend hr hres
  constructor
  · intro hnan
    unfold convertArc
    simp only []
    rw [hl]
    simp only []
    rw [hm]
    simp only []
    rw [Bool.or_eq_true] at hnan
    rw [if_pos hnan]
  · intro hnan
    unfold convertArc
    simp only []
    rw [hl]
    simp only []
    rw [hm]
    simp only []
    rw [Bool.or_eq_false_iff] at hnan
    rw [if_neg (by
      intro hx
      cases hx with
      | inl hx1 => rw [hnan.1] at hx1; exact Bool.noConfusion hx1
      | inr hx2 => rw [hnan.2] at hx2; exact Bool.noConfusion hx2)]
    exact ⟨_, rfl, rfl⟩

/-- C9 witness: under a solver returning a NaN center the arc fixture is
dropped, and under a well-defined solver the emitted reference endpoint
is the start point (its sweep flag is 1). -/
theorem convertArc_c9_witness :
    convertArc trigZero arcSolverNaN c9ArcArgs ⟨[], 0⟩ "gr_arc" none =
      Except.ok (none, ⟨[], 0⟩) ∧
    (∃ node, convertArc trigZero arcSolverConst c9ArcArgs ⟨[], 0⟩ "gr_arc" none =
      Except.ok (some node, ⟨[], 0⟩) ∧
      node.child 2 = SExpr.list [SExpr.str "end",
        sJ (if (jsplit "10 10 0 0 1 4050 3050" " ").getD 4 "" = "1"
            then kiCoords trigZero ((jsplit "4000 3000 " " ").getD 0 "")
              ((jsplit "4000 3000 " " ").getD 1 "") none
            else kiCoords trigZero ((jsplit "10 10 0 0 1 4050 3050" " ").getD 5 "")
              ((jsplit "10 10 0 0 1 4050 3050" " ").getD 6 "") none).x,
        sJ (if (jsplit "10 10 0 0 1 4050 3050" " ").getD 4 "" = "1"
            then kiCoords trigZero ((jsplit "4000 3000 " " ").getD 0 "")
              ((jsplit "4000 3000 " " ").getD 1 "") none
            else kiCoords trigZero ((jsplit "10 10 0 0 1 4050 3050" " ").getD 5 "")
              ((jsplit "10 10 0 0 1 4050 3050" " ").getD 6 "") none).y]) :=
  ⟨(convertArc_c9 trigZero arcSolverNaN c9ArcArgs ⟨[], 0⟩ "gr_arc" none "F.Cu"
      ⟨[], 0⟩ "4000 3000 " "10 10 0 0 1 4050 3050" _ _ _ _
      (by decide) (by decide) rfl rfl rfl rfl).1 (by decide),
   (convertArc_c9 trigZero arcSolverConst c9ArcArgs ⟨[], 0⟩ "gr_arc" none "F.Cu"
      ⟨[], 0⟩ "4000 3000 " "10 10 0 0 1 4050 3050" _ _ _ _
      (by decide) (by decide) rfl rfl rfl rfl).2 (by decide)⟩
